import Mathlib

/-!
# NRI descriptor tables and the shader-compiler wrapper

A shallow embedding of

* `demos/NRI/include/NRIDescs.h`: the numeric enumerations (`Result`, `Format`,
  `Layout`, `SharingMode`), the flag sets (`StageBits`, `AccessBits`,
  `ColorWriteBits`) and the barrier, texture, memory and descriptor description
  structures;
* `demos/NRI/include/Extensions/NRISwapChain.h`: `SWAPCHAIN_SEMAPHORE` and the
  frame loop of the usage example;
* `demos/NRI/include/Extensions/NRIUpscaler.h`: the `UpscalerMode` table;
* `demos/NRI/include/NRI.h`: the entries of `CoreInterface` for memory binding,
  fences, command buffers and descriptor sets. The header only declares them;
  their behaviour is modelled from the specification and marked as such;
* `tools/shader-compiler/src/root.cpp`: `diagnoseIfNeeded` and `__compileShader`.

Flag sets are natural numbers combined with `|||` and `&&&`; enumerations are
inductive types together with the numeric value the C declaration gives them.
-/

namespace NRI

/-! ## Flag and enumeration helpers -/

/-- Modelled from the spec: the `NriBit` helper of `NRIMacro.h`, a header that is
included by `NRIDescs.h` but is not among the sources. `NriBit(n)` names the
single bit at position `n` of a flag set. (Of the other helpers of that header,
`NriEnum` and `NriBits` declare an enumeration with the given underlying type
and `NriMember(T, X)` names the enumerator `X` of `T`.) -/
def NriBit (n : Nat) : Nat := 1 <<< n

/-! ## `Result` (NRIDescs.h, lines 89-103) -/

/-- The `Result` enumeration, `int8_t` underlying type. -/
inductive Result where
  | DEVICE_LOST
  | OUT_OF_DATE
  | INVALID_AGILITY_SDK
  | SUCCESS
  | FAILURE
  | INVALID_ARGUMENT
  | OUT_OF_MEMORY
  | UNSUPPORTED
  deriving DecidableEq, Repr

namespace Result

/-- The numeric value the declaration assigns to each code. -/
def value : Result → Int
  | DEVICE_LOST => -3
  | OUT_OF_DATE => -2
  | INVALID_AGILITY_SDK => -1
  | SUCCESS => 0
  | FAILURE => 1
  | INVALID_ARGUMENT => 2
  | OUT_OF_MEMORY => 3
  | UNSUPPORTED => 4

/-- Every declared code, in declaration order. -/
def all : List Result :=
  [DEVICE_LOST, OUT_OF_DATE, INVALID_AGILITY_SDK, SUCCESS,
   FAILURE, INVALID_ARGUMENT, OUT_OF_MEMORY, UNSUPPORTED]

/-- The grouping written in the declaration's comments: the first group is
"all bad, but optionally require an action" and does not trigger
`callbackInterface.AbortExecution`; `SUCCESS` is "all good"; for the last group
`callbackInterface.AbortExecution` is triggered. -/
def triggersAbort : Result → Bool
  | DEVICE_LOST => false
  | OUT_OF_DATE => false
  | INVALID_AGILITY_SDK => false
  | SUCCESS => false
  | FAILURE => true
  | INVALID_ARGUMENT => true
  | OUT_OF_MEMORY => true
  | UNSUPPORTED => true

end Result

/-! ## `StageBits` (NRIDescs.h, lines 340-403) -/

namespace StageBits

def ALL : Nat := 0
def NONE : Nat := 0x7FFFFFFF

def INDEX_INPUT : Nat := NriBit 0
def VERTEX_SHADER : Nat := NriBit 1
def TESS_CONTROL_SHADER : Nat := NriBit 2
def TESS_EVALUATION_SHADER : Nat := NriBit 3
def GEOMETRY_SHADER : Nat := NriBit 4
def MESH_CONTROL_SHADER : Nat := NriBit 5
def MESH_EVALUATION_SHADER : Nat := NriBit 6
def FRAGMENT_SHADER : Nat := NriBit 7
def DEPTH_STENCIL_ATTACHMENT : Nat := NriBit 8
def COLOR_ATTACHMENT : Nat := NriBit 9

def COMPUTE_SHADER : Nat := NriBit 10

def RAYGEN_SHADER : Nat := NriBit 11
def MISS_SHADER : Nat := NriBit 12
def INTERSECTION_SHADER : Nat := NriBit 13
def CLOSEST_HIT_SHADER : Nat := NriBit 14
def ANY_HIT_SHADER : Nat := NriBit 15
def CALLABLE_SHADER : Nat := NriBit 16

def ACCELERATION_STRUCTURE : Nat := NriBit 17
def MICROMAP : Nat := NriBit 18

def COPY : Nat := NriBit 19
def RESOLVE : Nat := NriBit 20
def CLEAR_STORAGE : Nat := NriBit 21

def INDIRECT : Nat := NriBit 22

def TESSELLATION_SHADERS : Nat :=
  TESS_CONTROL_SHADER ||| TESS_EVALUATION_SHADER

def MESH_SHADERS : Nat :=
  MESH_CONTROL_SHADER ||| MESH_EVALUATION_SHADER

def GRAPHICS_SHADERS : Nat :=
  VERTEX_SHADER ||| TESSELLATION_SHADERS ||| GEOMETRY_SHADER ||| MESH_SHADERS |||
    FRAGMENT_SHADER

def DRAW : Nat :=
  INDEX_INPUT ||| GRAPHICS_SHADERS ||| DEPTH_STENCIL_ATTACHMENT ||| COLOR_ATTACHMENT

def RAY_TRACING_SHADERS : Nat :=
  RAYGEN_SHADER ||| MISS_SHADER ||| INTERSECTION_SHADER ||| CLOSEST_HIT_SHADER |||
    ANY_HIT_SHADER ||| CALLABLE_SHADER

/-- The 23 single-stage and modifier constants (everything declared with one
`NriBit`), in declaration order. -/
def singles : List Nat :=
  [INDEX_INPUT, VERTEX_SHADER, TESS_CONTROL_SHADER, TESS_EVALUATION_SHADER,
   GEOMETRY_SHADER, MESH_CONTROL_SHADER, MESH_EVALUATION_SHADER, FRAGMENT_SHADER,
   DEPTH_STENCIL_ATTACHMENT, COLOR_ATTACHMENT, COMPUTE_SHADER, RAYGEN_SHADER,
   MISS_SHADER, INTERSECTION_SHADER, CLOSEST_HIT_SHADER, ANY_HIT_SHADER,
   CALLABLE_SHADER, ACCELERATION_STRUCTURE, MICROMAP, COPY, RESOLVE, CLEAR_STORAGE,
   INDIRECT]

/-- Membership test on flag sets: every bit of `s` is set in `mask`. -/
def contains (mask s : Nat) : Bool := mask &&& s == s

end StageBits

/-! ## `Format` (NRIDescs.h, lines 181-278) -/

/-- The `Format` enumeration, `uint8_t` underlying type; the constructors are the
enumerators in declaration order. -/
inductive Format where
  | UNKNOWN
  | R8_UNORM
  | R8_SNORM
  | R8_UINT
  | R8_SINT
  | RG8_UNORM
  | RG8_SNORM
  | RG8_UINT
  | RG8_SINT
  | BGRA8_UNORM
  | BGRA8_SRGB
  | RGBA8_UNORM
  | RGBA8_SRGB
  | RGBA8_SNORM
  | RGBA8_UINT
  | RGBA8_SINT
  | R16_UNORM
  | R16_SNORM
  | R16_UINT
  | R16_SINT
  | R16_SFLOAT
  | RG16_UNORM
  | RG16_SNORM
  | RG16_UINT
  | RG16_SINT
  | RG16_SFLOAT
  | RGBA16_UNORM
  | RGBA16_SNORM
  | RGBA16_UINT
  | RGBA16_SINT
  | RGBA16_SFLOAT
  | R32_UINT
  | R32_SINT
  | R32_SFLOAT
  | RG32_UINT
  | RG32_SINT
  | RG32_SFLOAT
  | RGB32_UINT
  | RGB32_SINT
  | RGB32_SFLOAT
  | RGBA32_UINT
  | RGBA32_SINT
  | RGBA32_SFLOAT
  | B5_G6_R5_UNORM
  | B5_G5_R5_A1_UNORM
  | B4_G4_R4_A4_UNORM
  | R10_G10_B10_A2_UNORM
  | R10_G10_B10_A2_UINT
  | R11_G11_B10_UFLOAT
  | R9_G9_B9_E5_UFLOAT
  | BC1_RGBA_UNORM
  | BC1_RGBA_SRGB
  | BC2_RGBA_UNORM
  | BC2_RGBA_SRGB
  | BC3_RGBA_UNORM
  | BC3_RGBA_SRGB
  | BC4_R_UNORM
  | BC4_R_SNORM
  | BC5_RG_UNORM
  | BC5_RG_SNORM
  | BC6H_RGB_UFLOAT
  | BC6H_RGB_SFLOAT
  | BC7_RGBA_UNORM
  | BC7_RGBA_SRGB
  | D16_UNORM
  | D24_UNORM_S8_UINT
  | D32_SFLOAT
  | D32_SFLOAT_S8_UINT_X24
  | R24_UNORM_X8
  | X24_G8_UINT
  | R32_SFLOAT_X8_X24
  | X32_G8_UINT_X24
  deriving DecidableEq, Repr

namespace Format

/-- The numeric value of an enumerator. No enumerator of `Format` has an
initialiser, so each one is numbered by its position in the declaration,
starting from 0. -/
def value (f : Format) : Nat := f.toCtorIdx

/-- Every enumerator, in declaration order. -/
def all : List Format :=
  [UNKNOWN, R8_UNORM, R8_SNORM, R8_UINT, R8_SINT, RG8_UNORM, RG8_SNORM, RG8_UINT,
   RG8_SINT, BGRA8_UNORM, BGRA8_SRGB, RGBA8_UNORM, RGBA8_SRGB, RGBA8_SNORM, RGBA8_UINT,
   RGBA8_SINT, R16_UNORM, R16_SNORM, R16_UINT, R16_SINT, R16_SFLOAT, RG16_UNORM,
   RG16_SNORM, RG16_UINT, RG16_SINT, RG16_SFLOAT, RGBA16_UNORM, RGBA16_SNORM,
   RGBA16_UINT, RGBA16_SINT, RGBA16_SFLOAT, R32_UINT, R32_SINT, R32_SFLOAT, RG32_UINT,
   RG32_SINT, RG32_SFLOAT, RGB32_UINT, RGB32_SINT, RGB32_SFLOAT, RGBA32_UINT,
   RGBA32_SINT, RGBA32_SFLOAT, B5_G6_R5_UNORM, B5_G5_R5_A1_UNORM, B4_G4_R4_A4_UNORM,
   R10_G10_B10_A2_UNORM, R10_G10_B10_A2_UINT, R11_G11_B10_UFLOAT, R9_G9_B9_E5_UFLOAT,
   BC1_RGBA_UNORM, BC1_RGBA_SRGB, BC2_RGBA_UNORM, BC2_RGBA_SRGB, BC3_RGBA_UNORM,
   BC3_RGBA_SRGB, BC4_R_UNORM, BC4_R_SNORM, BC5_RG_UNORM, BC5_RG_SNORM, BC6H_RGB_UFLOAT,
   BC6H_RGB_SFLOAT, BC7_RGBA_UNORM, BC7_RGBA_SRGB, D16_UNORM, D24_UNORM_S8_UINT,
   D32_SFLOAT, D32_SFLOAT_S8_UINT_X24, R24_UNORM_X8, X24_G8_UINT, R32_SFLOAT_X8_X24,
   X32_G8_UINT_X24]

/-- The enumerator stored as the number `n`, if there is one. -/
def ofValue (n : Nat) : Option Format := all.find? (fun f => f.value == n)

/-- The header's rule "To demote sRGB use the previous format, i.e. format - 1"
(the subtraction is on the `uint8_t` representation). -/
def demote (f : Format) : Option Format := ofValue ((f.value + 255) % 256)

/-- The enumerators whose name carries the `_SRGB` suffix. -/
def isSRGB : Format → Bool
  | BGRA8_SRGB => true
  | RGBA8_SRGB => true
  | BC1_RGBA_SRGB => true
  | BC2_RGBA_SRGB => true
  | BC3_RGBA_SRGB => true
  | BC7_RGBA_SRGB => true
  | _ => false

end Format

/-! ## `AccessBits`, `Layout` and the barrier scopes (NRIDescs.h, lines 407-476) -/

namespace AccessBits

def NONE : Nat := 0

def INDEX_BUFFER : Nat := NriBit 0
def VERTEX_BUFFER : Nat := NriBit 1
def CONSTANT_BUFFER : Nat := NriBit 2
def ARGUMENT_BUFFER : Nat := NriBit 3
def SCRATCH_BUFFER : Nat := NriBit 4

def COLOR_ATTACHMENT : Nat := NriBit 5
def SHADING_RATE_ATTACHMENT : Nat := NriBit 6
def DEPTH_STENCIL_ATTACHMENT_READ : Nat := NriBit 7
def DEPTH_STENCIL_ATTACHMENT_WRITE : Nat := NriBit 8

def ACCELERATION_STRUCTURE_READ : Nat := NriBit 9
def ACCELERATION_STRUCTURE_WRITE : Nat := NriBit 10

def MICROMAP_READ : Nat := NriBit 11
def MICROMAP_WRITE : Nat := NriBit 12

def SHADER_RESOURCE : Nat := NriBit 13
def SHADER_RESOURCE_STORAGE : Nat := NriBit 14
def SHADER_BINDING_TABLE : Nat := NriBit 15

def COPY_SOURCE : Nat := NriBit 16
def COPY_DESTINATION : Nat := NriBit 17

def RESOLVE_SOURCE : Nat := NriBit 18
def RESOLVE_DESTINATION : Nat := NriBit 19

end AccessBits

/-- The `Layout` enumeration, `uint8_t` underlying type, in declaration order. -/
inductive Layout where
  | UNDEFINED
  | GENERAL
  | PRESENT
  | COLOR_ATTACHMENT
  | SHADING_RATE_ATTACHMENT
  | DEPTH_STENCIL_ATTACHMENT
  | DEPTH_STENCIL_READONLY
  | SHADER_RESOURCE
  | SHADER_RESOURCE_STORAGE
  | COPY_SOURCE
  | COPY_DESTINATION
  | RESOLVE_SOURCE
  | RESOLVE_DESTINATION
  deriving DecidableEq, Repr

/-- The numeric value of a `Layout` enumerator: its position in the declaration
(no enumerator has an initialiser). -/
def Layout.value (l : Layout) : Nat := l.toCtorIdx

/-- `AccessStage`: the scope of a global or buffer barrier. -/
structure AccessStage where
  access : Nat
  stages : Nat
  deriving DecidableEq, Repr

/-- `AccessLayoutStage`: the scope of a texture barrier. -/
structure AccessLayoutStage where
  access : Nat
  layout : Layout
  stages : Nat
  deriving DecidableEq, Repr

/-- An `AccessStage` initialised with `{}`: every member holds the number 0. -/
def AccessStage.isZeroInit (s : AccessStage) : Prop :=
  s.access = 0 ∧ s.stages = 0

/-- An `AccessLayoutStage` initialised with `{}`: every member holds the number 0. -/
def AccessLayoutStage.isZeroInit (s : AccessLayoutStage) : Prop :=
  s.access = 0 ∧ s.layout.value = 0 ∧ s.stages = 0

instance (s : AccessStage) : Decidable s.isZeroInit :=
  inferInstanceAs (Decidable (s.access = 0 ∧ s.stages = 0))

instance (s : AccessLayoutStage) : Decidable s.isZeroInit :=
  inferInstanceAs (Decidable (s.access = 0 ∧ s.layout.value = 0 ∧ s.stages = 0))

/-! ## Texture creation (NRIDescs.h, lines 522-582) -/

/-- The `TextureType` enumeration, in declaration order. -/
inductive TextureType where
  | TEXTURE_1D
  | TEXTURE_2D
  | TEXTURE_3D
  deriving DecidableEq, Repr

/-- The `SharingMode` enumeration, `uint8_t` underlying type, in declaration order. -/
inductive SharingMode where
  | CONCURRENT
  | EXCLUSIVE
  | SIMULTANEOUS
  deriving DecidableEq, Repr

/-- The numeric value of a `SharingMode` enumerator: its position in the
declaration (no enumerator has an initialiser). -/
def SharingMode.value (m : SharingMode) : Nat := m.toCtorIdx

namespace TextureUsageBits

def NONE : Nat := 0
def SHADER_RESOURCE : Nat := NriBit 0
def SHADER_RESOURCE_STORAGE : Nat := NriBit 1
def COLOR_ATTACHMENT : Nat := NriBit 2
def DEPTH_STENCIL_ATTACHMENT : Nat := NriBit 3
def SHADING_RATE_ATTACHMENT : Nat := NriBit 4

end TextureUsageBits

/-- The `ClearValue` union (16 bytes), kept as its four 32-bit words, i.e. through
its `Color32ui` member. -/
structure ClearValue where
  x : Nat
  y : Nat
  z : Nat
  w : Nat
  deriving DecidableEq, Repr

/-- `TextureDesc`; the members marked `NriOptional` in the header are `height`,
`depth`, `mipNum`, `layerNum`, `sampleNum`, `sharingMode` and
`optimizedClearValue`. -/
structure TextureDesc where
  type : TextureType
  usage : Nat
  format : Format
  width : Nat
  height : Nat
  depth : Nat
  mipNum : Nat
  layerNum : Nat
  sampleNum : Nat
  sharingMode : SharingMode
  optimizedClearValue : ClearValue
  deriving DecidableEq, Repr

/-- The optional `sharingMode` member was not set by the caller: after `{}` or
a designated initialiser that omits it, it holds the number 0. -/
def TextureDesc.sharingModeZeroInit (d : TextureDesc) : Prop :=
  d.sharingMode.value = 0

instance (d : TextureDesc) : Decidable d.sharingModeZeroInit :=
  inferInstanceAs (Decidable (d.sharingMode.value = 0))

/-! ## The shader-compiler wrapper (tools/shader-compiler/src/root.cpp)

The Slang compiler is an external library: its entry points are the fields of
`Slang`, one function per call the wrapper makes, returning what the call hands
back (a `SlangResult`, the object written through `writeRef()`, which stays
null when nothing is written, and a diagnostics blob). The C allocator is the
field of `Libc`. The part of the process that outlives a call (what was
printed, the state of the heap) is `World`; the four output parameters are
`Outs`. Dereferencing a null `ComPtr` ends the run with a `Fault`.
-/

namespace ShaderCompiler

/-- The content of a buffer: `getBufferPointer()` of a blob is its bytes and
`getBufferSize()` their number. -/
abbrev Bytes := List Nat

/-- `SlangResult`, a signed 32-bit status. -/
abbrev SlangResult := Int

/-- `SLANG_FAILED` of `slang.h`: a status is a failure exactly when it is
negative. -/
def SLANG_FAILED (status : SlangResult) : Bool := decide (status < 0)

/-- A live `slang::IGlobalSession`. -/
structure IGlobalSession where
  handle : Nat
  deriving DecidableEq, Repr

/-- A live `slang::ISession`, with what has been loaded into it. -/
structure ISession where
  handle : Nat
  deriving DecidableEq, Repr

/-- A `slang::IModule`. -/
structure IModule where
  handle : Nat
  deriving DecidableEq, Repr

/-- A `slang::IEntryPoint`. -/
structure IEntryPoint where
  handle : Nat
  deriving DecidableEq, Repr

/-- A composed or linked program (`slang::IComponentType`). -/
structure IComponentType where
  handle : Nat
  deriving DecidableEq, Repr

/-- A `slang::ProgramLayout`. -/
structure ProgramLayout where
  handle : Nat
  deriving DecidableEq, Repr

/-- An element of the `components` vector: a module or an entry point, both seen
as `slang::IComponentType *`. A null pointer is `none` in the list. -/
inductive ComponentRef where
  | module (m : IModule)
  | entryPoint (e : IEntryPoint)
  deriving DecidableEq, Repr

/-- The code generation targets the wrapper can name. -/
inductive SlangCompileTarget where
  | SLANG_TARGET_UNKNOWN
  | SLANG_SPIRV
  deriving DecidableEq, Repr

/-- The members of `slang::TargetDesc` the wrapper sets; the others stay zero. -/
structure TargetDesc where
  format : SlangCompileTarget
  profile : Nat
  deriving DecidableEq, Repr

/-- The members of `slang::SessionDesc` the wrapper sets: `targets` with
`targetCount` elements; the others stay zero. -/
structure SessionDesc where
  targets : List TargetDesc
  deriving DecidableEq, Repr

/-- The external compiler, as the wrapper observes it: each field is one of the
calls made by `__compileShader`, with the object arguments it is made on. The
number of defined entry points is a count, hence a natural number. -/
structure Slang where
  createGlobalSession : SlangResult × Option IGlobalSession
  findProfile : IGlobalSession → String → Nat
  createSession : IGlobalSession → SessionDesc → SlangResult × Option ISession
  /-- Returns the module (null on failure), the diagnostics and the session
  after the load. -/
  loadModuleFromSourceString :
    ISession → String → String → String → Option IModule × Option String × ISession
  getDefinedEntryPointCount : IModule → Nat
  getDefinedEntryPoint : IModule → Nat → SlangResult × Option IEntryPoint
  createCompositeComponentType :
    ISession → List (Option ComponentRef) → SlangResult × Option IComponentType
  link : IComponentType → SlangResult × Option IComponentType × Option String
  getTargetCode : IComponentType → Nat → SlangResult × Option Bytes × Option String
  getLayout : IComponentType → Option ProgramLayout
  toJson : ProgramLayout → SlangResult × Option Bytes

/-- The state of the C heap. -/
abbrev Heap := Nat

/-- The C library: `malloc heap n` tells whether an `n`-byte request succeeds in
this state of the heap and gives the state after it. -/
structure Libc where
  malloc : Heap → Nat → Bool × Heap

/-- What outlives a call: the lines printed to `std::cout` and the heap. -/
structure World where
  stdout : List String
  heap : Heap
  deriving DecidableEq, Repr

/-- The four output parameters; a pointer is `none` when null and otherwise the
content of the buffer it refers to. -/
structure Outs where
  outSpirvCode : Option Bytes
  outSpirvCodeLen : Nat
  outReflection : Option Bytes
  outReflectionLen : Nat
  deriving DecidableEq, Repr

/-- The null pointer that was dereferenced. -/
inductive Fault where
  | globalSession
  | session
  | program
  | linkedProgram
  | layout
  | spirvCode
  | reflectionJson
  deriving DecidableEq, Repr

/-- A call that returned: the `int` it returned and the state it left. -/
structure Returned where
  status : Int
  world : World
  outs : Outs
  deriving DecidableEq, Repr

/-- `diagnoseIfNeeded`: print the blob's text and a line end when the blob is not
null. -/
def diagnoseIfNeeded (diagnosticsBlob : Option String) (w : World) : World :=
  match diagnosticsBlob with
  | some text => { w with stdout := w.stdout ++ [text] }
  | none => w

/-- `memcpy(dst, src, n)`: the first `n` bytes of `dst` become those of `src`. -/
def memcpy (dst src : Bytes) (n : Nat) : Bytes := src.take n ++ dst.drop n

/-- The buffer a successful `malloc(n)` returns: `n` bytes of indeterminate
content (shown as zeros; the wrapper overwrites all of them). -/
def fresh (n : Nat) : Bytes := List.replicate n 0

/-- Lines 61-70: the vector of `1 + entrypoint_count` null pointers, the module
stored at index 0, and the loop `for (i = 0; i < entrypoint_count; ++i)` storing
entry point `i` (null if `getDefinedEntryPoint` wrote nothing) at index `i + 1`. -/
def components (slang : Slang) (slangModule : IModule) : List (Option ComponentRef) :=
  let entrypoint_count := slang.getDefinedEntryPointCount slangModule
  let components : List (Option ComponentRef) := List.replicate (1 + entrypoint_count) none
  let components := components.set 0 (some (ComponentRef.module slangModule))
  (List.range entrypoint_count).foldl
    (fun components i =>
      let entrypoint := (slang.getDefinedEntryPoint slangModule i).2
      components.set (i + 1) (entrypoint.map ComponentRef.entryPoint))
    components

/-- Lines 114-138: both lengths are stored, both buffers are requested from
`malloc` and filled only when the request succeeded, and 0 is returned. -/
def deliver (libc : Libc) (spirvCode : Option Bytes) (reflectionJson : Option Bytes)
    (w : World) : Except Fault Returned :=
  match spirvCode with
  | none => .error Fault.spirvCode
  | some spirvCode =>
    let outSpirvCodeLen := spirvCode.length
    let m₁ := libc.malloc w.heap outSpirvCodeLen
    let outSpirvCode :=
      if m₁.1 then some (memcpy (fresh outSpirvCodeLen) spirvCode outSpirvCodeLen) else none
    match reflectionJson with
    | none => .error Fault.reflectionJson
    | some reflectionJson =>
      let outReflectionLen := reflectionJson.length
      let m₂ := libc.malloc m₁.2 outReflectionLen
      let outReflection :=
        if m₂.1 then some (memcpy (fresh outReflectionLen) reflectionJson outReflectionLen)
        else none
      .ok { status := 0
            world := { w with heap := m₂.2 }
            outs := { outSpirvCode := outSpirvCode
                      outSpirvCodeLen := outSpirvCodeLen
                      outReflection := outReflection
                      outReflectionLen := outReflectionLen } }

/-- `__compileShader` (lines 19-139). `SLANG_RETURN_ON_FAIL(result)` of
`slang-com-helper.h` returns `result` when `SLANG_FAILED(result)`. The results of
`createGlobalSession`, `createSession`, `getDefinedEntryPoint` and
`createCompositeComponentType` are not looked at; the objects they were to write
are used right after. -/
def __compileShader (slang : Slang) (libc : Libc) (name path input : String)
    (outs : Outs) (w : World) : Except Fault Returned :=
  match slang.createGlobalSession.2 with
  | none => .error Fault.globalSession
  | some globalSession =>
    let targetDesc : TargetDesc :=
      { format := SlangCompileTarget.SLANG_SPIRV
        profile := slang.findProfile globalSession "spirv_1_3" }
    let sessionDesc : SessionDesc := { targets := [targetDesc] }
    match (slang.createSession globalSession sessionDesc).2 with
    | none => .error Fault.session
    | some session =>
      match slang.loadModuleFromSourceString session name path input with
      | (none, diagnosticsBlob, _) =>
        .ok { status := -1, world := diagnoseIfNeeded diagnosticsBlob w, outs := outs }
      | (some slangModule, diagnosticsBlob, session) =>
        let w := diagnoseIfNeeded diagnosticsBlob w
        match (slang.createCompositeComponentType session (components slang slangModule)).2 with
        | none => .error Fault.program
        | some program =>
          match slang.link program with
          | (result, linkedProgram, diagnosticsBlob) =>
            let w := diagnoseIfNeeded diagnosticsBlob w
            if SLANG_FAILED result then .ok { status := result, world := w, outs := outs }
            else
              match linkedProgram with
              | none => .error Fault.linkedProgram
              | some linkedProgram =>
                match slang.getTargetCode linkedProgram 0 with
                | (result, spirvCode, diagnosticsBlob) =>
                  let w := diagnoseIfNeeded diagnosticsBlob w
                  if SLANG_FAILED result then
                    .ok { status := result, world := w, outs := outs }
                  else
                    match slang.getLayout linkedProgram with
                    | none => .error Fault.layout
                    | some layout =>
                      match slang.toJson layout with
                      | (result, reflectionJson) =>
                        let w := diagnoseIfNeeded none w
                        if SLANG_FAILED result then
                          .ok { status := result, world := w, outs := outs }
                        else deliver libc spirvCode reflectionJson w

/-- The two blobs of a call, and what the output parameters hold of them. The
external compiler, driven as `__compileShader` drives it on `name`, `path` and
`input`, handed out the code blob `spirvCode` (from `getTargetCode`) and the
reflection blob `reflectionJson` (from `toJson`); `r` reports both sizes, and
each output pointer is null when its `malloc` request failed in the heap the
call started from and otherwise refers to a buffer holding exactly the blob. -/
def DeliveredFrom (slang : Slang) (libc : Libc) (name path input : String) (w : World)
    (r : Returned) : Prop :=
  ∃ globalSession session₀ slangModule diagnosticsBlob session program linkedProgram
      spirvCode layout reflectionJson,
    slang.createGlobalSession.2 = some globalSession
    ∧ (slang.createSession globalSession
          { targets := [{ format := SlangCompileTarget.SLANG_SPIRV
                          profile := slang.findProfile globalSession "spirv_1_3" }] }).2
        = some session₀
    ∧ slang.loadModuleFromSourceString session₀ name path input
        = (some slangModule, diagnosticsBlob, session)
    ∧ (slang.createCompositeComponentType session (components slang slangModule)).2
        = some program
    ∧ (slang.link program).2.1 = some linkedProgram
    ∧ (slang.getTargetCode linkedProgram 0).2.1 = some spirvCode
    ∧ slang.getLayout linkedProgram = some layout
    ∧ (slang.toJson layout).2 = some reflectionJson
    ∧ r.outs.outSpirvCodeLen = spirvCode.length
    ∧ r.outs.outSpirvCode =
        (if (libc.malloc w.heap spirvCode.length).1 then some spirvCode else none)
    ∧ r.outs.outReflectionLen = reflectionJson.length
    ∧ r.outs.outReflection =
        (if (libc.malloc (libc.malloc w.heap spirvCode.length).2 reflectionJson.length).1
          then some reflectionJson else none)

/-- The compiler `slang` with every diagnostics blob withheld: the same objects
and the same result codes, but `loadModuleFromSourceString`, `link` and
`getTargetCode` write no diagnostics. -/
def silenced (slang : Slang) : Slang :=
  { slang with
    loadModuleFromSourceString := fun session name path input =>
      let r := slang.loadModuleFromSourceString session name path input
      (r.1, none, r.2.2)
    link := fun program =>
      let r := slang.link program
      (r.1, r.2.1, none)
    getTargetCode := fun program targetIndex =>
      let r := slang.getTargetCode program targetIndex
      (r.1, r.2.1, none) }

/-- What a call hands back to its caller apart from the log: the status, the
output parameters and the heap. -/
def Returned.outcome (r : Returned) : Int × Outs × Heap := (r.status, r.outs, r.world.heap)

/-! ### Concrete compilers and allocators -/

namespace Example

/-- A compiler for which every step succeeds: one entry point, the four bytes
`03 02 23 07` as code and the two bytes of `{}` as reflection. -/
def slangOk : Slang where
  createGlobalSession := (0, some { handle := 1 })
  findProfile := fun _ _ => 1
  createSession := fun _ _ => (0, some { handle := 1 })
  loadModuleFromSourceString := fun session _ _ _ => (some { handle := 1 }, none, session)
  getDefinedEntryPointCount := fun _ => 1
  getDefinedEntryPoint := fun _ i => (0, some { handle := i })
  createCompositeComponentType := fun _ _ => (0, some { handle := 1 })
  link := fun _ => (0, some { handle := 2 }, none)
  getTargetCode := fun _ _ => (0, some [3, 2, 35, 7], none)
  getLayout := fun _ => some { handle := 1 }
  toJson := fun _ => (0, some [123, 125])

/-- The same compiler, except that `createGlobalSession` fails with status -1
and writes no session. -/
def slangNoGlobalSession : Slang :=
  { slangOk with createGlobalSession := (-1, none) }

/-- An allocator that refuses every request. -/
def libcExhausted : Libc where
  malloc := fun heap _ => (false, heap)

/-- An allocator over a heap of `heap` free bytes: a request succeeds when it
fits and then uses up its bytes. -/
def libcBounded : Libc where
  malloc := fun heap n => if n ≤ heap then (true, heap - n) else (false, heap)

/-- Output parameters before a call: null pointers and zero lengths. -/
def outsNull : Outs :=
  { outSpirvCode := none, outSpirvCodeLen := 0, outReflection := none, outReflectionLen := 0 }

/-- Output parameters after a call that delivered both blobs of `slangOk`. -/
def outsFull : Outs :=
  { outSpirvCode := some [3, 2, 35, 7], outSpirvCodeLen := 4
    outReflection := some [123, 125], outReflectionLen := 2 }

/-- Output parameters after a call on `slangOk` whose two `malloc` requests
failed: both sizes, and null pointers. -/
def outsLengthsOnly : Outs :=
  { outSpirvCode := none, outSpirvCodeLen := 4, outReflection := none, outReflectionLen := 2 }

/-- The compiler `slangOk`, except that loading, linking and code generation
each succeed with a warning in their diagnostics blob. -/
def slangWarnings : Slang :=
  { slangOk with
    loadModuleFromSourceString := fun session _ _ _ =>
      (some { handle := 1 }, some "warning: load", session)
    link := fun _ => (0, some { handle := 2 }, some "warning: link")
    getTargetCode := fun _ _ => (0, some [3, 2, 35, 7], some "warning: code") }

/-- The compiler `slangOk`, except that `link` fails with status -5 and an error
in its diagnostics blob. -/
def slangLinkFails : Slang :=
  { slangOk with link := fun _ => (-5, none, some "error: link") }

/-- The compiler `slangOk` for a module of three entry points. -/
def slangThreeEntryPoints : Slang :=
  { slangOk with getDefinedEntryPointCount := fun _ => 3 }

/-- A process that has printed nothing and has `heap` free bytes. -/
def world (heap : Nat) : World := { stdout := [], heap := heap }

end Example

end ShaderCompiler

/-! ## Swap chain (Extensions/NRISwapChain.h) -/

/-- The conversion `(uint64_t)(x)` of an integer: its value modulo `2 ^ 64`. -/
def toUInt64 (x : Int) : Nat := (x % 2 ^ 64).toNat

/-- Line 14: `SWAPCHAIN_SEMAPHORE = (uint64_t)(-1)`, the special `initialValue`
for `CreateFence`. -/
def SWAPCHAIN_SEMAPHORE : Nat := toUInt64 (-1)

/-- The usage example, line 164: frame `frameIndex` signals the frame fence with
`1 + frameIndex`. (The example gives `frameIndex` no type; it is a natural
number here.) -/
def frameFenceSignalValue (frameIndex : Nat) : Nat := 1 + frameIndex

/-- The usage example, line 147: the value frame `frameIndex` waits for,
`frameIndex >= QUEUED_FRAME_NUM ? 1 + frameIndex - QUEUED_FRAME_NUM : 0`. -/
def frameFenceWaitValue (QUEUED_FRAME_NUM frameIndex : Nat) : Nat :=
  if frameIndex ≥ QUEUED_FRAME_NUM then 1 + frameIndex - QUEUED_FRAME_NUM else 0

/-! ## `ColorWriteBits` (NRIDescs.h, lines 1233-1246) -/

namespace ColorWriteBits

def NONE : Nat := 0
def R : Nat := NriBit 0
def G : Nat := NriBit 1
def B : Nat := NriBit 2
def A : Nat := NriBit 3

def RGB : Nat := R ||| G ||| B

def RGBA : Nat := RGB ||| A

/-- The four channel bits, in declaration order. -/
def channels : List Nat := [R, G, B, A]

end ColorWriteBits

/-! ## Upscaler (Extensions/NRIUpscaler.h, lines 21-28 and 58-65) -/

/-- The `UpscalerMode` enumeration, in declaration order. -/
inductive UpscalerMode where
  | NATIVE
  | ULTRA_QUALITY
  | QUALITY
  | BALANCED
  | PERFORMANCE
  | ULTRA_PERFORMANCE
  deriving DecidableEq, Repr

namespace UpscalerMode

/-- The "Scaling factor" column of the declaration's comments. -/
def scalingFactor : UpscalerMode → ℚ
  | NATIVE => 1
  | ULTRA_QUALITY => 13 / 10
  | QUALITY => 15 / 10
  | BALANCED => 17 / 10
  | PERFORMANCE => 2
  | ULTRA_PERFORMANCE => 3

/-- The "Min jitter phases" column of the declaration's comments. -/
def minJitterPhases : UpscalerMode → Int
  | NATIVE => 8
  | ULTRA_QUALITY => 14
  | QUALITY => 18
  | BALANCED => 23
  | PERFORMANCE => 32
  | ULTRA_PERFORMANCE => 72

/-- Every mode, in declaration order. -/
def all : List UpscalerMode :=
  [NATIVE, ULTRA_QUALITY, QUALITY, BALANCED, PERFORMANCE, ULTRA_PERFORMANCE]

end UpscalerMode

/-- The comment on `UpscalerProps::jitterPhaseNum`: the minimal number of phases
is computed as `ceil(8 * scalingFactor ^ 2)`. -/
def jitterPhaseNum (scalingFactor : ℚ) : Int := Int.ceil (8 * scalingFactor ^ 2)

/-! ## Resource model: binding to memory (NRIDescs.h, lines 612-642; NRI.h, lines 110-126)

`AllocateMemory`, `BindBufferMemory` and `BindTextureMemory` are entries of
`CoreInterface`; the functions behind them are not among the sources. The
structures are those of the header; what binding does is modelled from the
specification.
-/

/-- `MemoryDesc`: the memory requirements of a buffer or texture. -/
structure MemoryDesc where
  size : Nat
  alignment : Nat
  type : Nat
  mustBeDedicated : Bool
  deriving DecidableEq, Repr

/-- One element of the array given to `BindBufferMemory` / `BindTextureMemory`
(`BufferMemoryBindingDesc`, `TextureMemoryBindingDesc`): the resource, here
together with its `MemoryDesc` (what `GetBufferMemoryDesc` / `GetTextureMemoryDesc`
report for it), and the offset in the memory. The `memory` member is the
`Memory` the binding is applied to. -/
structure MemoryBindingDesc where
  resource : Nat
  memoryDesc : MemoryDesc
  offset : Nat
  deriving DecidableEq, Repr

/-- Modelled from the spec: a `Memory` object, "a contiguous physical allocation
tagged with an opaque `MemoryType`", with the resources bound into it so far. -/
structure Memory where
  size : Nat
  type : Nat
  bound : List MemoryBindingDesc
  deriving DecidableEq, Repr

/-- Modelled from the spec: `AllocateMemory(size, type, priority)` when it
succeeds: a memory of that size and type with nothing bound. -/
def AllocateMemory (size type : Nat) : Memory := { size := size, type := type, bound := [] }

/-- Some resource bound into the memory was flagged `mustBeDedicated`. -/
def Memory.holdsDedicated (memory : Memory) : Bool :=
  memory.bound.any (fun b => b.memoryDesc.mustBeDedicated)

/-- Modelled from the spec: `BindBufferMemory` / `BindTextureMemory` for one
element of the array. The checks are the failure modes the specification names
for binding, each with `INVALID_ARGUMENT` and no change of the memory:
"offset/alignment violation" (`offset % alignment == 0` and
`offset + size <= Memory.size` must hold), and "binding a dedicated-required
resource into a shared Memory" ("a resource flagged `mustBeDedicated` must be
the sole occupant of its Memory object at offset 0"). Otherwise the resource is
bound; resources may alias. -/
def BindMemory (memory : Memory) (desc : MemoryBindingDesc) : Result × Memory :=
  if desc.offset % desc.memoryDesc.alignment ≠ 0 then (Result.INVALID_ARGUMENT, memory)
  else if memory.size < desc.offset + desc.memoryDesc.size then
    (Result.INVALID_ARGUMENT, memory)
  else if desc.memoryDesc.mustBeDedicated && (!memory.bound.isEmpty || desc.offset != 0) then
    (Result.INVALID_ARGUMENT, memory)
  else if memory.holdsDedicated then (Result.INVALID_ARGUMENT, memory)
  else (Result.SUCCESS, { memory with bound := memory.bound ++ [desc] })

/-- The memory after a sequence of binding calls, failed ones included. -/
def bindAll (memory : Memory) (descs : List MemoryBindingDesc) : Memory :=
  descs.foldl (fun m desc => (BindMemory m desc).2) memory

/-- The invariant of the specification's data model: a resource flagged
`mustBeDedicated` is the only resource of its memory and sits at offset 0. -/
def Memory.dedicatedAlone (memory : Memory) : Prop :=
  ∀ b ∈ memory.bound, b.memoryDesc.mustBeDedicated = true → memory.bound = [b] ∧ b.offset = 0

/-! ## Fences (NRI.h, lines 70, 84, 233, 236; NRIDescs.h, lines 1472-1485)

`CreateFence`, `GetFenceValue`, `QueueSubmit` and `Wait` are entries of
`CoreInterface`; the functions behind them are not among the sources.
-/

/-- Modelled from the spec: a fence is "a monotonically increasing 64-bit
counter". -/
structure Fence where
  value : Nat
  deriving DecidableEq, Repr

/-- Modelled from the spec: `CreateFence(device, initialValue, fence)`. -/
def CreateFence (initialValue : Nat) : Fence := { value := initialValue }

/-- Modelled from the spec: `GetFenceValue(fence)` reads the counter. -/
def GetFenceValue (fence : Fence) : Nat := fence.value

/-- What can happen to one fence: a `QueueSubmit` whose `signalFences` hold
`{fence, value}` completes on the device, or the host calls `Wait(fence, value)`. -/
inductive FenceEvent where
  | signalCompleted (value : Nat)
  | hostWait (value : Nat)
  deriving DecidableEq, Repr

/-- How a host `Wait` proceeds. -/
inductive WaitOutcome where
  | returnsImmediately
  | blocks
  deriving DecidableEq, Repr

/-- Modelled from the spec: `Wait(fence, value)` "returns immediately if
`GetFenceValue(fence) >= value`, and otherwise blocks" until a submission that
signals at least `value` completes. -/
def Wait (fence : Fence) (value : Nat) : WaitOutcome :=
  if value ≤ GetFenceValue fence then WaitOutcome.returnsImmediately else WaitOutcome.blocks

/-- Modelled from the spec: the effect of one event on the counter. A completed
signal makes the fence "reach its target value", and "fence values ... never
decrease"; a host wait only reads. -/
def Fence.after (fence : Fence) : FenceEvent → Fence
  | FenceEvent.signalCompleted value =>
    if fence.value ≤ value then { value := value } else fence
  | FenceEvent.hostWait _ => fence

/-- The fence after a sequence of events. -/
def Fence.afterAll (fence : Fence) (events : List FenceEvent) : Fence :=
  events.foldl Fence.after fence

/-! ## Command buffers (NRI.h, lines 137-222)

The entries of `CoreInterface` between `BeginCommandBuffer` and
`EndCommandBuffer`; the functions behind them are not among the sources.
-/

/-- The `Cmd*` entries of `CoreInterface`, in declaration order. -/
inductive Cmd where
  | CmdSetDescriptorPool
  | CmdSetPipelineLayout
  | CmdSetPipeline
  | CmdSetDescriptorSet
  | CmdSetRootConstants
  | CmdSetRootDescriptor
  | CmdBarrier
  | CmdSetIndexBuffer
  | CmdSetVertexBuffers
  | CmdSetViewports
  | CmdSetScissors
  | CmdSetStencilReference
  | CmdSetDepthBounds
  | CmdSetBlendConstants
  | CmdSetSampleLocations
  | CmdSetShadingRate
  | CmdSetDepthBias
  | CmdBeginRendering
  | CmdClearAttachments
  | CmdDraw
  | CmdDrawIndexed
  | CmdDrawIndirect
  | CmdDrawIndexedIndirect
  | CmdEndRendering
  | CmdDispatch
  | CmdDispatchIndirect
  | CmdCopyBuffer
  | CmdCopyTexture
  | CmdUploadBufferToTexture
  | CmdReadbackTextureToBuffer
  | CmdZeroBuffer
  | CmdResolveTexture
  | CmdClearStorage
  | CmdResetQueries
  | CmdBeginQuery
  | CmdEndQuery
  | CmdCopyQueries
  | CmdBeginAnnotation
  | CmdEndAnnotation
  | CmdAnnotation
  deriving DecidableEq, Repr

/-- A call made on a command buffer. -/
inductive CommandBufferCall where
  | BeginCommandBuffer
  | cmd (c : Cmd)
  | EndCommandBuffer
  deriving DecidableEq, Repr

/-- Modelled from the spec: the states of "State machine per CommandBuffer:
`INITIAL → RECORDING → EXECUTABLE`". -/
inductive CommandBufferState where
  | INITIAL
  | RECORDING
  | EXECUTABLE
  deriving DecidableEq, Repr

/-- Modelled from the spec: the state after a call, `none` when the call is not
legal in the state. "`BeginCommandBuffer` (INITIAL→RECORDING)",
"`EndCommandBuffer` (RECORDING→EXECUTABLE)", and `Cmd*` calls are made "while
RECORDING". -/
def CommandBufferState.call :
    CommandBufferState → CommandBufferCall → Option CommandBufferState
  | INITIAL, CommandBufferCall.BeginCommandBuffer => some RECORDING
  | RECORDING, CommandBufferCall.cmd _ => some RECORDING
  | RECORDING, CommandBufferCall.EndCommandBuffer => some EXECUTABLE
  | _, _ => none

/-- The state after a sequence of calls, `none` when one of them is not legal. -/
def CommandBufferState.calls :
    CommandBufferState → List CommandBufferCall → Option CommandBufferState
  | s, [] => some s
  | s, c :: cs =>
    match s.call c with
    | none => none
    | some s' => s'.calls cs

/-! ## Descriptor sets (NRIDescs.h, lines 853-951; NRI.h, lines 128-135)

`AllocateDescriptorSets` and `UpdateDescriptorRanges` are entries of
`CoreInterface`; the functions behind them are not among the sources.
-/

namespace DescriptorRangeBits

def NONE : Nat := 0
def PARTIALLY_BOUND : Nat := NriBit 0
def ARRAY : Nat := NriBit 1
def VARIABLE_SIZED_ARRAY : Nat := NriBit 2
def ALLOW_UPDATE_AFTER_SET : Nat := NriBit 3

end DescriptorRangeBits

/-- The `DescriptorType` enumeration, in declaration order. -/
inductive DescriptorType where
  | SAMPLER
  | CONSTANT_BUFFER
  | TEXTURE
  | STORAGE_TEXTURE
  | BUFFER
  | STORAGE_BUFFER
  | STRUCTURED_BUFFER
  | STORAGE_STRUCTURED_BUFFER
  | ACCELERATION_STRUCTURE
  deriving DecidableEq, Repr

/-- `DescriptorRangeDesc`. -/
structure DescriptorRangeDesc where
  baseRegisterIndex : Nat
  descriptorNum : Nat
  descriptorType : DescriptorType
  shaderStages : Nat
  flags : Nat
  deriving DecidableEq, Repr

/-- `DynamicConstantBufferDesc`. -/
structure DynamicConstantBufferDesc where
  registerIndex : Nat
  shaderStages : Nat
  deriving DecidableEq, Repr

/-- `DescriptorSetDesc`; each array with its length is a list. -/
structure DescriptorSetDesc where
  registerSpace : Nat
  ranges : List DescriptorRangeDesc
  dynamicConstantBuffers : List DynamicConstantBufferDesc
  flags : Nat
  deriving DecidableEq, Repr

/-- `RootConstantDesc`. -/
structure RootConstantDesc where
  registerIndex : Nat
  size : Nat
  shaderStages : Nat
  deriving DecidableEq, Repr

/-- `RootDescriptorDesc`. -/
structure RootDescriptorDesc where
  registerIndex : Nat
  descriptorType : DescriptorType
  shaderStages : Nat
  deriving DecidableEq, Repr

/-- `PipelineLayoutDesc`; each array with its length is a list. -/
structure PipelineLayoutDesc where
  rootRegisterSpace : Nat
  rootConstants : List RootConstantDesc
  rootDescriptors : List RootDescriptorDesc
  descriptorSets : List DescriptorSetDesc
  shaderStages : Nat
  flags : Nat
  deriving DecidableEq, Repr

/-- Modelled from the spec: a `Descriptor`, "a view over a Buffer/Texture/Sampler
(shader-resource, storage, attachment, sampler, acceleration-structure view,
etc.)": the opaque handle and the kind of view it was created as. -/
structure Descriptor where
  handle : Nat
  descriptorType : DescriptorType
  deriving DecidableEq, Repr

/-- `DescriptorRangeUpdateDesc`: the descriptors to write (the array with its
length `descriptorNum`) and the index of the first one in the range. -/
structure DescriptorRangeUpdateDesc where
  descriptors : List Descriptor
  baseDescriptor : Nat
  deriving DecidableEq, Repr

/-- Modelled from the spec: one range of an allocated set, its declared shape and
its slots (`none` while nothing has been written). -/
structure DescriptorRange where
  desc : DescriptorRangeDesc
  descriptors : List (Option Descriptor)
  deriving DecidableEq, Repr

/-- Modelled from the spec: a `DescriptorSet`, "a fixed-shape bag of Descriptors". -/
structure DescriptorSet where
  ranges : List DescriptorRange
  deriving DecidableEq, Repr

/-- The number of slots of a range in a set allocated with
`variableDescriptorNum`: that number for a range flagged `VARIABLE_SIZED_ARRAY`
(whose `descriptorNum` is then the maximum), `descriptorNum` otherwise. -/
def DescriptorRangeDesc.slots (desc : DescriptorRangeDesc) (variableDescriptorNum : Nat) : Nat :=
  if desc.flags &&& DescriptorRangeBits.VARIABLE_SIZED_ARRAY ≠ 0 then variableDescriptorNum
  else desc.descriptorNum

/-- Modelled from the spec: one set from `AllocateDescriptorSets(descriptorPool,
pipelineLayout, setIndex, ..., variableDescriptorNum)`: the shape is the one
"fixed by the PipelineLayout's DescriptorSetDesc at allocation time"; the count
of a variable-sized array is "bounded by the range's declared max". `none` when
there is no set `setIndex` or the count exceeds a maximum. -/
def AllocateDescriptorSet (pipelineLayout : PipelineLayoutDesc)
    (setIndex variableDescriptorNum : Nat) : Option DescriptorSet :=
  match pipelineLayout.descriptorSets[setIndex]? with
  | none => none
  | some setDesc =>
    if setDesc.ranges.all
        (fun desc => decide (desc.slots variableDescriptorNum ≤ desc.descriptorNum)) then
      some { ranges := setDesc.ranges.map (fun desc =>
              { desc := desc
                descriptors := List.replicate (desc.slots variableDescriptorNum) none }) }
    else none

/-- Modelled from the spec: writing one descriptor into slot `index` of a range.
"Attempting to write a descriptor of a mismatched `DescriptorType` into a range
must fail": the result is `none`, as it is for a slot the range does not have. -/
def DescriptorRange.write (range : DescriptorRange) (index : Nat) (descriptor : Descriptor) :
    Option DescriptorRange :=
  if descriptor.descriptorType ≠ range.desc.descriptorType then none
  else if range.descriptors.length ≤ index then none
  else some { range with descriptors := range.descriptors.set index (some descriptor) }

/-- Modelled from the spec: writing the descriptors of one
`DescriptorRangeUpdateDesc` into a range, the first at `baseDescriptor`; fails
when one write fails. -/
def DescriptorRange.update (range : DescriptorRange) (index : Nat) :
    List Descriptor → Option DescriptorRange
  | [] => some range
  | d :: ds =>
    match range.write index d with
    | none => none
    | some range' => range'.update (index + 1) ds

/-- Modelled from the spec: `UpdateDescriptorRanges(descriptorSet, baseRange,
rangeNum, rangeUpdateDescs)`, the update `i` going to range `baseRange + i`. The
entry of `CoreInterface` returns `void`; a failed update, `none` here, leaves the
set as it was. -/
def UpdateDescriptorRanges (descriptorSet : DescriptorSet) (baseRange : Nat) :
    List DescriptorRangeUpdateDesc → Option DescriptorSet
  | [] => some descriptorSet
  | u :: us =>
    match descriptorSet.ranges[baseRange]? with
    | none => none
    | some range =>
      match range.update u.baseDescriptor u.descriptors with
      | none => none
      | some range' =>
        UpdateDescriptorRanges { ranges := descriptorSet.ranges.set baseRange range' }
          (baseRange + 1) us

/-- The set after a sequence of `UpdateDescriptorRanges` calls, each given as its
`baseRange` and its updates; a failed call leaves the set as it was. -/
def DescriptorSet.afterUpdates (descriptorSet : DescriptorSet) :
    List (Nat × List DescriptorRangeUpdateDesc) → DescriptorSet
  | [] => descriptorSet
  | (baseRange, updates) :: calls =>
    match UpdateDescriptorRanges descriptorSet baseRange updates with
    | none => descriptorSet.afterUpdates calls
    | some descriptorSet' => descriptorSet'.afterUpdates calls

/-- Every descriptor held by the set has the type its range declares. -/
def DescriptorSet.wellTyped (descriptorSet : DescriptorSet) : Prop :=
  ∀ range ∈ descriptorSet.ranges, ∀ d, some d ∈ range.descriptors →
    d.descriptorType = range.desc.descriptorType

/-- The declared shape of the set: the `DescriptorRangeDesc` of each range. -/
def DescriptorSet.shape (descriptorSet : DescriptorSet) : List DescriptorRangeDesc :=
  descriptorSet.ranges.map (fun range => range.desc)

/-! ### Concrete memories and layouts -/

namespace Example

/-- A 1000-byte memory into which one ordinary 100-byte resource is bound at
offset 0. -/
def memoryOccupied : Memory :=
  { size := 1000, type := 0
    bound := [{ resource := 1
                memoryDesc := { size := 100, alignment := 1, type := 0,
                                mustBeDedicated := false }
                offset := 0 }] }

/-- A 100-byte resource flagged `mustBeDedicated`, to be bound at offset 0. -/
def dedicatedAtZero : MemoryBindingDesc :=
  { resource := 2
    memoryDesc := { size := 100, alignment := 1, type := 0, mustBeDedicated := true }
    offset := 0 }

/-- A pipeline layout with one descriptor set of one range: two textures. -/
def layoutTwoTextures : PipelineLayoutDesc :=
  { rootRegisterSpace := 0, rootConstants := [], rootDescriptors := []
    descriptorSets :=
      [{ registerSpace := 0
         ranges := [{ baseRegisterIndex := 0, descriptorNum := 2
                      descriptorType := DescriptorType.TEXTURE
                      shaderStages := StageBits.FRAGMENT_SHADER
                      flags := DescriptorRangeBits.NONE }]
         dynamicConstantBuffers := [], flags := 0 }]
    shaderStages := StageBits.FRAGMENT_SHADER, flags := 0 }

/-- The set allocated from set 0 of `layoutTwoTextures`: two empty slots. -/
def setTwoTextures : DescriptorSet :=
  { ranges := [{ desc := { baseRegisterIndex := 0, descriptorNum := 2
                           descriptorType := DescriptorType.TEXTURE
                           shaderStages := StageBits.FRAGMENT_SHADER
                           flags := DescriptorRangeBits.NONE }
                 descriptors := [none, none] }] }

/-- A sampler descriptor. -/
def sampler : Descriptor := { handle := 7, descriptorType := DescriptorType.SAMPLER }

/-- A texture descriptor. -/
def texture : Descriptor := { handle := 8, descriptorType := DescriptorType.TEXTURE }

end Example

/-! ## Flag enumerations: every `NriBits` declaration of the headers -/

/-- The bitwise OR of a list of flags (of no flag: 0). -/
def unionOf (flags : List Nat) : Nat := flags.foldl (fun acc flag => acc ||| flag) 0

/-- A flag enumeration as `NriBits(name, type, ...)` declares it: the number of
bits of the underlying unsigned integer type and the values of the enumerators,
in declaration order. -/
structure FlagEnum where
  width : Nat
  named : List Nat
  deriving DecidableEq, Repr

namespace StageBits

/-- The five umbrella constants, in declaration order. -/
def umbrellas : List Nat :=
  [TESSELLATION_SHADERS, MESH_SHADERS, GRAPHICS_SHADERS, DRAW, RAY_TRACING_SHADERS]

/-- The named stage, modifier and umbrella constants: every enumerator except the
special `ALL` and `NONE`. -/
def named : List Nat := singles ++ umbrellas

end StageBits

/-! ### `PlaneBits` (NRIDescs.h, lines 282-289), `uint8_t` -/

namespace PlaneBits

def ALL : Nat := 0
def COLOR : Nat := NriBit 0
def DEPTH : Nat := NriBit 1
def STENCIL : Nat := NriBit 2

end PlaneBits

/-- The declaration of `PlaneBits` (NRIDescs.h, line 282): `uint8_t`. -/
def PlaneBits.decl : FlagEnum :=
  { width := 8
    named := [PlaneBits.ALL, PlaneBits.COLOR, PlaneBits.DEPTH, PlaneBits.STENCIL] }

/-! ### `FormatSupportBits` (NRIDescs.h, lines 292-314), `uint16_t` -/

namespace FormatSupportBits

def UNSUPPORTED : Nat := 0
def TEXTURE : Nat := NriBit 0
def STORAGE_TEXTURE : Nat := NriBit 1
def STORAGE_TEXTURE_ATOMICS : Nat := NriBit 2
def COLOR_ATTACHMENT : Nat := NriBit 3
def DEPTH_STENCIL_ATTACHMENT : Nat := NriBit 4
def BLEND : Nat := NriBit 5
def MULTISAMPLE_2X : Nat := NriBit 6
def MULTISAMPLE_4X : Nat := NriBit 7
def MULTISAMPLE_8X : Nat := NriBit 8
def BUFFER : Nat := NriBit 9
def STORAGE_BUFFER : Nat := NriBit 10
def STORAGE_BUFFER_ATOMICS : Nat := NriBit 11
def VERTEX_BUFFER : Nat := NriBit 12
def STORAGE_LOAD_WITHOUT_FORMAT : Nat := NriBit 13

end FormatSupportBits

/-- The declaration of `FormatSupportBits` (NRIDescs.h, line 292): `uint16_t`. -/
def FormatSupportBits.decl : FlagEnum :=
  { width := 16
    named := [FormatSupportBits.UNSUPPORTED, FormatSupportBits.TEXTURE,
              FormatSupportBits.STORAGE_TEXTURE, FormatSupportBits.STORAGE_TEXTURE_ATOMICS,
              FormatSupportBits.COLOR_ATTACHMENT,
              FormatSupportBits.DEPTH_STENCIL_ATTACHMENT, FormatSupportBits.BLEND,
              FormatSupportBits.MULTISAMPLE_2X, FormatSupportBits.MULTISAMPLE_4X,
              FormatSupportBits.MULTISAMPLE_8X, FormatSupportBits.BUFFER,
              FormatSupportBits.STORAGE_BUFFER, FormatSupportBits.STORAGE_BUFFER_ATOMICS,
              FormatSupportBits.VERTEX_BUFFER,
              FormatSupportBits.STORAGE_LOAD_WITHOUT_FORMAT] }

/-- The declaration of `StageBits` (NRIDescs.h, line 340): `uint32_t`. -/
def StageBits.decl : FlagEnum :=
  { width := 32
    named := [StageBits.ALL, StageBits.NONE, StageBits.INDEX_INPUT, StageBits.VERTEX_SHADER,
              StageBits.TESS_CONTROL_SHADER, StageBits.TESS_EVALUATION_SHADER,
              StageBits.GEOMETRY_SHADER, StageBits.MESH_CONTROL_SHADER,
              StageBits.MESH_EVALUATION_SHADER, StageBits.FRAGMENT_SHADER,
              StageBits.DEPTH_STENCIL_ATTACHMENT, StageBits.COLOR_ATTACHMENT,
              StageBits.COMPUTE_SHADER, StageBits.RAYGEN_SHADER, StageBits.MISS_SHADER,
              StageBits.INTERSECTION_SHADER, StageBits.CLOSEST_HIT_SHADER,
              StageBits.ANY_HIT_SHADER, StageBits.CALLABLE_SHADER,
              StageBits.ACCELERATION_STRUCTURE, StageBits.MICROMAP, StageBits.COPY,
              StageBits.RESOLVE, StageBits.CLEAR_STORAGE, StageBits.INDIRECT,
              StageBits.TESSELLATION_SHADERS, StageBits.MESH_SHADERS,
              StageBits.GRAPHICS_SHADERS, StageBits.DRAW, StageBits.RAY_TRACING_SHADERS] }

/-- The declaration of `AccessBits` (NRIDescs.h, line 407): `uint32_t`. -/
def AccessBits.decl : FlagEnum :=
  { width := 32
    named := [AccessBits.NONE, AccessBits.INDEX_BUFFER, AccessBits.VERTEX_BUFFER,
              AccessBits.CONSTANT_BUFFER, AccessBits.ARGUMENT_BUFFER,
              AccessBits.SCRATCH_BUFFER, AccessBits.COLOR_ATTACHMENT,
              AccessBits.SHADING_RATE_ATTACHMENT, AccessBits.DEPTH_STENCIL_ATTACHMENT_READ,
              AccessBits.DEPTH_STENCIL_ATTACHMENT_WRITE,
              AccessBits.ACCELERATION_STRUCTURE_READ,
              AccessBits.ACCELERATION_STRUCTURE_WRITE, AccessBits.MICROMAP_READ,
              AccessBits.MICROMAP_WRITE, AccessBits.SHADER_RESOURCE,
              AccessBits.SHADER_RESOURCE_STORAGE, AccessBits.SHADER_BINDING_TABLE,
              AccessBits.COPY_SOURCE, AccessBits.COPY_DESTINATION,
              AccessBits.RESOLVE_SOURCE, AccessBits.RESOLVE_DESTINATION] }

/-- The declaration of `TextureUsageBits` (NRIDescs.h, line 544): `uint8_t`. -/
def TextureUsageBits.decl : FlagEnum :=
  { width := 8
    named := [TextureUsageBits.NONE, TextureUsageBits.SHADER_RESOURCE,
              TextureUsageBits.SHADER_RESOURCE_STORAGE, TextureUsageBits.COLOR_ATTACHMENT,
              TextureUsageBits.DEPTH_STENCIL_ATTACHMENT,
              TextureUsageBits.SHADING_RATE_ATTACHMENT] }

/-! ### `BufferUsageBits` (NRIDescs.h, lines 554-568), `uint16_t` -/

namespace BufferUsageBits

def NONE : Nat := 0
def SHADER_RESOURCE : Nat := NriBit 0
def SHADER_RESOURCE_STORAGE : Nat := NriBit 1
def VERTEX_BUFFER : Nat := NriBit 2
def INDEX_BUFFER : Nat := NriBit 3
def CONSTANT_BUFFER : Nat := NriBit 4
def ARGUMENT_BUFFER : Nat := NriBit 5
def SCRATCH_BUFFER : Nat := NriBit 6
def SHADER_BINDING_TABLE : Nat := NriBit 7
def ACCELERATION_STRUCTURE_BUILD_INPUT : Nat := NriBit 8
def ACCELERATION_STRUCTURE_STORAGE : Nat := NriBit 9
def MICROMAP_BUILD_INPUT : Nat := NriBit 10
def MICROMAP_STORAGE : Nat := NriBit 11

end BufferUsageBits

/-- The declaration of `BufferUsageBits` (NRIDescs.h, line 554): `uint16_t`. -/
def BufferUsageBits.decl : FlagEnum :=
  { width := 16
    named := [BufferUsageBits.NONE, BufferUsageBits.SHADER_RESOURCE,
              BufferUsageBits.SHADER_RESOURCE_STORAGE, BufferUsageBits.VERTEX_BUFFER,
              BufferUsageBits.INDEX_BUFFER, BufferUsageBits.CONSTANT_BUFFER,
              BufferUsageBits.ARGUMENT_BUFFER, BufferUsageBits.SCRATCH_BUFFER,
              BufferUsageBits.SHADER_BINDING_TABLE,
              BufferUsageBits.ACCELERATION_STRUCTURE_BUILD_INPUT,
              BufferUsageBits.ACCELERATION_STRUCTURE_STORAGE,
              BufferUsageBits.MICROMAP_BUILD_INPUT, BufferUsageBits.MICROMAP_STORAGE] }

/-! ### `PipelineLayoutBits` (NRIDescs.h, lines 836-840), `uint8_t` -/

namespace PipelineLayoutBits

def NONE : Nat := 0
def IGNORE_GLOBAL_SPIRV_OFFSETS : Nat := NriBit 0
def ENABLE_D3D12_DRAW_PARAMETERS_EMULATION : Nat := NriBit 1

end PipelineLayoutBits

/-- The declaration of `PipelineLayoutBits` (NRIDescs.h, line 836): `uint8_t`. -/
def PipelineLayoutBits.decl : FlagEnum :=
  { width := 8
    named := [PipelineLayoutBits.NONE, PipelineLayoutBits.IGNORE_GLOBAL_SPIRV_OFFSETS,
              PipelineLayoutBits.ENABLE_D3D12_DRAW_PARAMETERS_EMULATION] }

/-! ### `DescriptorPoolBits` (NRIDescs.h, lines 842-845), `uint8_t` -/

namespace DescriptorPoolBits

def NONE : Nat := 0
def ALLOW_UPDATE_AFTER_SET : Nat := NriBit 1

end DescriptorPoolBits

/-- The declaration of `DescriptorPoolBits` (NRIDescs.h, line 842): `uint8_t`. -/
def DescriptorPoolBits.decl : FlagEnum :=
  { width := 8
    named := [DescriptorPoolBits.NONE, DescriptorPoolBits.ALLOW_UPDATE_AFTER_SET] }

/-! ### `DescriptorSetBits` (NRIDescs.h, lines 847-850), `uint8_t` -/

namespace DescriptorSetBits

def NONE : Nat := 0
def ALLOW_UPDATE_AFTER_SET : Nat := NriBit 0

end DescriptorSetBits

/-- The declaration of `DescriptorSetBits` (NRIDescs.h, line 847): `uint8_t`. -/
def DescriptorSetBits.decl : FlagEnum :=
  { width := 8
    named := [DescriptorSetBits.NONE, DescriptorSetBits.ALLOW_UPDATE_AFTER_SET] }

/-- The declaration of `DescriptorRangeBits` (NRIDescs.h, line 853): `uint8_t`. -/
def DescriptorRangeBits.decl : FlagEnum :=
  { width := 8
    named := [DescriptorRangeBits.NONE, DescriptorRangeBits.PARTIALLY_BOUND,
              DescriptorRangeBits.ARRAY, DescriptorRangeBits.VARIABLE_SIZED_ARRAY,
              DescriptorRangeBits.ALLOW_UPDATE_AFTER_SET] }

/-- The declaration of `ColorWriteBits` (NRIDescs.h, line 1233): `uint8_t`. -/
def ColorWriteBits.decl : FlagEnum :=
  { width := 8
    named := [ColorWriteBits.NONE, ColorWriteBits.R, ColorWriteBits.G, ColorWriteBits.B,
              ColorWriteBits.A, ColorWriteBits.RGB, ColorWriteBits.RGBA] }

/-! ### `RayTracingPipelineBits` (NRIRayTracing.h, lines 21-26), `uint8_t` -/

namespace RayTracingPipelineBits

def NONE : Nat := 0
def SKIP_TRIANGLES : Nat := NriBit 0
def SKIP_AABBS : Nat := NriBit 1
def ALLOW_MICROMAPS : Nat := NriBit 2

end RayTracingPipelineBits

/-- The declaration of `RayTracingPipelineBits` (NRIRayTracing.h, line 21): `uint8_t`. -/
def RayTracingPipelineBits.decl : FlagEnum :=
  { width := 8
    named := [RayTracingPipelineBits.NONE, RayTracingPipelineBits.SKIP_TRIANGLES,
              RayTracingPipelineBits.SKIP_AABBS, RayTracingPipelineBits.ALLOW_MICROMAPS] }

/-! ### `MicromapBits` (NRIRayTracing.h, lines 74-79), `uint8_t` -/

namespace MicromapBits

def NONE : Nat := 0
def ALLOW_COMPACTION : Nat := NriBit 1
def PREFER_FAST_TRACE : Nat := NriBit 2
def PREFER_FAST_BUILD : Nat := NriBit 3

end MicromapBits

/-- The declaration of `MicromapBits` (NRIRayTracing.h, line 74): `uint8_t`. -/
def MicromapBits.decl : FlagEnum :=
  { width := 8
    named := [MicromapBits.NONE, MicromapBits.ALLOW_COMPACTION,
              MicromapBits.PREFER_FAST_TRACE, MicromapBits.PREFER_FAST_BUILD] }

/-! ### `BottomLevelGeometryBits` (NRIRayTracing.h, lines 141-145), `uint8_t` -/

namespace BottomLevelGeometryBits

def NONE : Nat := 0
def OPAQUE_GEOMETRY : Nat := NriBit 0
def NO_DUPLICATE_ANY_HIT_INVOCATION : Nat := NriBit 1

end BottomLevelGeometryBits

/-- The declaration of `BottomLevelGeometryBits` (NRIRayTracing.h, line 141): `uint8_t`. -/
def BottomLevelGeometryBits.decl : FlagEnum :=
  { width := 8
    named := [BottomLevelGeometryBits.NONE, BottomLevelGeometryBits.OPAQUE_GEOMETRY,
              BottomLevelGeometryBits.NO_DUPLICATE_ANY_HIT_INVOCATION] }

/-! ### `TopLevelInstanceBits` (NRIRayTracing.h, lines 206-214), `uint32_t` -/

namespace TopLevelInstanceBits

def NONE : Nat := 0
def TRIANGLE_CULL_DISABLE : Nat := NriBit 0
def TRIANGLE_FLIP_FACING : Nat := NriBit 1
def FORCE_OPAQUE : Nat := NriBit 2
def FORCE_NON_OPAQUE : Nat := NriBit 3
def FORCE_OPACITY_2_STATE : Nat := NriBit 4
def DISABLE_MICROMAPS : Nat := NriBit 5

end TopLevelInstanceBits

/-- The declaration of `TopLevelInstanceBits` (NRIRayTracing.h, line 206): `uint32_t`. -/
def TopLevelInstanceBits.decl : FlagEnum :=
  { width := 32
    named := [TopLevelInstanceBits.NONE, TopLevelInstanceBits.TRIANGLE_CULL_DISABLE,
              TopLevelInstanceBits.TRIANGLE_FLIP_FACING, TopLevelInstanceBits.FORCE_OPAQUE,
              TopLevelInstanceBits.FORCE_NON_OPAQUE,
              TopLevelInstanceBits.FORCE_OPACITY_2_STATE,
              TopLevelInstanceBits.DISABLE_MICROMAPS] }

/-! ### `AccelerationStructureBits` (NRIRayTracing.h, lines 236-246), `uint8_t` -/

namespace AccelerationStructureBits

def NONE : Nat := 0
def ALLOW_UPDATE : Nat := NriBit 0
def ALLOW_COMPACTION : Nat := NriBit 1
def ALLOW_DATA_ACCESS : Nat := NriBit 2
def ALLOW_MICROMAP_UPDATE : Nat := NriBit 3
def ALLOW_DISABLE_MICROMAPS : Nat := NriBit 4
def PREFER_FAST_TRACE : Nat := NriBit 5
def PREFER_FAST_BUILD : Nat := NriBit 6
def MINIMIZE_MEMORY : Nat := NriBit 7

end AccelerationStructureBits

/-- The declaration of `AccelerationStructureBits` (NRIRayTracing.h, line 236): `uint8_t`. -/
def AccelerationStructureBits.decl : FlagEnum :=
  { width := 8
    named := [AccelerationStructureBits.NONE, AccelerationStructureBits.ALLOW_UPDATE,
              AccelerationStructureBits.ALLOW_COMPACTION,
              AccelerationStructureBits.ALLOW_DATA_ACCESS,
              AccelerationStructureBits.ALLOW_MICROMAP_UPDATE,
              AccelerationStructureBits.ALLOW_DISABLE_MICROMAPS,
              AccelerationStructureBits.PREFER_FAST_TRACE,
              AccelerationStructureBits.PREFER_FAST_BUILD,
              AccelerationStructureBits.MINIMIZE_MEMORY] }

/-! ### `SwapChainBits` (NRISwapChain.h, lines 32-38), `uint8_t` -/

namespace SwapChainBits

def NONE : Nat := 0
def VSYNC : Nat := NriBit 0
def WAITABLE : Nat := NriBit 1
def ALLOW_TEARING : Nat := NriBit 2
def ALLOW_LOW_LATENCY : Nat := NriBit 3

end SwapChainBits

/-- The declaration of `SwapChainBits` (NRISwapChain.h, line 32): `uint8_t`. -/
def SwapChainBits.decl : FlagEnum :=
  { width := 8
    named := [SwapChainBits.NONE, SwapChainBits.VSYNC, SwapChainBits.WAITABLE,
              SwapChainBits.ALLOW_TEARING, SwapChainBits.ALLOW_LOW_LATENCY] }

/-! ### `UpscalerBits` (NRIUpscaler.h, lines 30-41), `uint16_t` -/

namespace UpscalerBits

def NONE : Nat := 0
def HDR : Nat := NriBit 0
def SRGB : Nat := NriBit 1
def USE_EXPOSURE : Nat := NriBit 2
def USE_REACTIVE : Nat := NriBit 3
def DEPTH_INVERTED : Nat := NriBit 4
def DEPTH_INFINITE : Nat := NriBit 5
def DEPTH_LINEAR : Nat := NriBit 6
def MV_UPSCALED : Nat := NriBit 7
def MV_JITTERED : Nat := NriBit 8

end UpscalerBits

/-- The declaration of `UpscalerBits` (NRIUpscaler.h, line 30): `uint16_t`. -/
def UpscalerBits.decl : FlagEnum :=
  { width := 16
    named := [UpscalerBits.NONE, UpscalerBits.HDR, UpscalerBits.SRGB,
              UpscalerBits.USE_EXPOSURE, UpscalerBits.USE_REACTIVE,
              UpscalerBits.DEPTH_INVERTED, UpscalerBits.DEPTH_INFINITE,
              UpscalerBits.DEPTH_LINEAR, UpscalerBits.MV_UPSCALED, UpscalerBits.MV_JITTERED] }

/-! ### `DispatchUpscaleBits` (NRIUpscaler.h, lines 43-47), `uint8_t` -/

namespace DispatchUpscaleBits

def NONE : Nat := 0
def RESET_HISTORY : Nat := NriBit 0
def USE_SPECULAR_MOTION : Nat := NriBit 1

end DispatchUpscaleBits

/-- The declaration of `DispatchUpscaleBits` (NRIUpscaler.h, line 43): `uint8_t`. -/
def DispatchUpscaleBits.decl : FlagEnum :=
  { width := 8
    named := [DispatchUpscaleBits.NONE, DispatchUpscaleBits.RESET_HISTORY,
              DispatchUpscaleBits.USE_SPECULAR_MOTION] }

/-- Every flag enumeration the headers declare with `NriBits`. -/
def allFlagEnums : List FlagEnum :=
  [PlaneBits.decl, FormatSupportBits.decl, StageBits.decl, AccessBits.decl,
   TextureUsageBits.decl, BufferUsageBits.decl, PipelineLayoutBits.decl,
   DescriptorPoolBits.decl, DescriptorSetBits.decl, DescriptorRangeBits.decl,
   ColorWriteBits.decl, RayTracingPipelineBits.decl, MicromapBits.decl,
   BottomLevelGeometryBits.decl, TopLevelInstanceBits.decl, AccelerationStructureBits.decl,
   SwapChainBits.decl, UpscalerBits.decl, DispatchUpscaleBits.decl]

/-! ## Theorems -/

/-- C1: `StageBits::GRAPHICS_SHADERS` is the bitwise OR of the seven shader-stage
bits, has the value `0xFE`, has exactly the bit positions 1..7 set, and among
the single-stage constants it contains exactly those seven. -/
theorem graphics_shaders_exact :
    StageBits.GRAPHICS_SHADERS =
        (StageBits.VERTEX_SHADER ||| StageBits.TESS_CONTROL_SHADER |||
          StageBits.TESS_EVALUATION_SHADER ||| StageBits.GEOMETRY_SHADER |||
          StageBits.MESH_CONTROL_SHADER ||| StageBits.MESH_EVALUATION_SHADER |||
          StageBits.FRAGMENT_SHADER)
      ∧ StageBits.GRAPHICS_SHADERS = 0xFE
      ∧ (∀ n : Nat, StageBits.GRAPHICS_SHADERS.testBit n = true ↔ 1 ≤ n ∧ n ≤ 7)
      ∧ (∀ s ∈ StageBits.singles,
          StageBits.contains StageBits.GRAPHICS_SHADERS s = true ↔
            s ∈ [StageBits.VERTEX_SHADER, StageBits.TESS_CONTROL_SHADER,
                 StageBits.TESS_EVALUATION_SHADER, StageBits.GEOMETRY_SHADER,
                 StageBits.MESH_CONTROL_SHADER, StageBits.MESH_EVALUATION_SHADER,
                 StageBits.FRAGMENT_SHADER]) := by
  refine ⟨by decide, by decide, ?_, by decide⟩
  intro n
  have hv : StageBits.GRAPHICS_SHADERS = 0xFE := by decide
  rw [hv]
  by_cases h : n < 8
  · interval_cases n <;> decide
  · have h8 : 8 ≤ n := Nat.le_of_not_lt h
    have hlt : (0xFE : Nat) < 2 ^ n :=
      lt_of_lt_of_le (by decide : (0xFE : Nat) < 2 ^ 8) (Nat.pow_le_pow_right (by decide) h8)
    rw [Nat.testBit_lt_two_pow hlt]
    constructor
    · intro hf; cases hf
    · rintro ⟨_, h7⟩; omega

/-- C2: `StageBits::RAY_TRACING_SHADERS` is the bitwise OR of the six ray-tracing
shader bits, has the value `0x1F800`, has exactly the bit positions 11..16 set,
and contains neither `COMPUTE_SHADER` nor `ACCELERATION_STRUCTURE` nor
`MICROMAP`. -/
theorem ray_tracing_shaders_exact :
    StageBits.RAY_TRACING_SHADERS =
        (StageBits.RAYGEN_SHADER ||| StageBits.MISS_SHADER |||
          StageBits.INTERSECTION_SHADER ||| StageBits.CLOSEST_HIT_SHADER |||
          StageBits.ANY_HIT_SHADER ||| StageBits.CALLABLE_SHADER)
      ∧ StageBits.RAY_TRACING_SHADERS = 0x1F800
      ∧ (∀ n : Nat, StageBits.RAY_TRACING_SHADERS.testBit n = true ↔ 11 ≤ n ∧ n ≤ 16)
      ∧ StageBits.RAY_TRACING_SHADERS &&& StageBits.COMPUTE_SHADER = 0
      ∧ StageBits.RAY_TRACING_SHADERS &&& StageBits.ACCELERATION_STRUCTURE = 0
      ∧ StageBits.RAY_TRACING_SHADERS &&& StageBits.MICROMAP = 0
      ∧ (∀ s ∈ StageBits.singles,
          StageBits.contains StageBits.RAY_TRACING_SHADERS s = true ↔
            s ∈ [StageBits.RAYGEN_SHADER, StageBits.MISS_SHADER,
                 StageBits.INTERSECTION_SHADER, StageBits.CLOSEST_HIT_SHADER,
                 StageBits.ANY_HIT_SHADER, StageBits.CALLABLE_SHADER]) := by
  refine ⟨by decide, by decide, ?_, by decide, by decide, by decide, by decide⟩
  intro n
  have hv : StageBits.RAY_TRACING_SHADERS = 0x1F800 := by decide
  rw [hv]
  by_cases h : n < 17
  · interval_cases n <;> decide
  · have h17 : 17 ≤ n := Nat.le_of_not_lt h
    have hlt : (0x1F800 : Nat) < 2 ^ n :=
      lt_of_lt_of_le (by decide : (0x1F800 : Nat) < 2 ^ 17)
        (Nat.pow_le_pow_right (by decide) h17)
    rw [Nat.testBit_lt_two_pow hlt]
    constructor
    · intro hf; cases hf
    · rintro ⟨_, h16⟩; omega

/-- C3: `StageBits::DRAW` is the bitwise OR of `INDEX_INPUT`, the seven stages of
`GRAPHICS_SHADERS`, `DEPTH_STENCIL_ATTACHMENT` and `COLOR_ATTACHMENT`, has the
value `0x3FF`, has exactly the bit positions 0..9 set, and among the single
constants it contains exactly the first ten: no compute, ray-tracing,
acceleration-structure, micromap, copy, resolve, clear or `INDIRECT` bit. -/
theorem draw_exact :
    StageBits.DRAW =
        (StageBits.INDEX_INPUT ||| StageBits.VERTEX_SHADER |||
          StageBits.TESS_CONTROL_SHADER ||| StageBits.TESS_EVALUATION_SHADER |||
          StageBits.GEOMETRY_SHADER ||| StageBits.MESH_CONTROL_SHADER |||
          StageBits.MESH_EVALUATION_SHADER ||| StageBits.FRAGMENT_SHADER |||
          StageBits.DEPTH_STENCIL_ATTACHMENT ||| StageBits.COLOR_ATTACHMENT)
      ∧ StageBits.DRAW = 0x3FF
      ∧ (∀ n : Nat, StageBits.DRAW.testBit n = true ↔ n ≤ 9)
      ∧ (∀ s ∈ StageBits.singles,
          StageBits.contains StageBits.DRAW s = true ↔
            s ∈ [StageBits.INDEX_INPUT, StageBits.VERTEX_SHADER,
                 StageBits.TESS_CONTROL_SHADER, StageBits.TESS_EVALUATION_SHADER,
                 StageBits.GEOMETRY_SHADER, StageBits.MESH_CONTROL_SHADER,
                 StageBits.MESH_EVALUATION_SHADER, StageBits.FRAGMENT_SHADER,
                 StageBits.DEPTH_STENCIL_ATTACHMENT, StageBits.COLOR_ATTACHMENT])
      ∧ (∀ s ∈ [StageBits.COMPUTE_SHADER, StageBits.RAYGEN_SHADER, StageBits.MISS_SHADER,
                StageBits.INTERSECTION_SHADER, StageBits.CLOSEST_HIT_SHADER,
                StageBits.ANY_HIT_SHADER, StageBits.CALLABLE_SHADER,
                StageBits.ACCELERATION_STRUCTURE, StageBits.MICROMAP, StageBits.COPY,
                StageBits.RESOLVE, StageBits.CLEAR_STORAGE, StageBits.INDIRECT],
          StageBits.DRAW &&& s = 0) := by
  refine ⟨by decide, by decide, ?_, by decide, by decide⟩
  intro n
  have hv : StageBits.DRAW = 0x3FF := by decide
  rw [hv]
  by_cases h : n < 10
  · interval_cases n <;> decide
  · have h10 : 10 ≤ n := Nat.le_of_not_lt h
    have hlt : (0x3FF : Nat) < 2 ^ n :=
      lt_of_lt_of_le (by decide : (0x3FF : Nat) < 2 ^ 10)
        (Nat.pow_le_pow_right (by decide) h10)
    rw [Nat.testBit_lt_two_pow hlt]
    constructor
    · intro hf; cases hf
    · intro h9; omega

/-- C4: the `Result` codes are partitioned by sign. `SUCCESS` is the only code
with value 0, the codes that do not trigger the abort hook (`DEVICE_LOST`,
`OUT_OF_DATE`, `INVALID_AGILITY_SDK`) are exactly the negative ones, the codes
that trigger it (`FAILURE`, `INVALID_ARGUMENT`, `OUT_OF_MEMORY`, `UNSUPPORTED`)
are exactly the positive ones, so the abort hook applies iff the value is
positive. -/
theorem result_partitioned_by_sign (r : Result) :
    (r.value = 0 ↔ r = Result.SUCCESS)
      ∧ (r.value < 0 ↔
          r ∈ [Result.DEVICE_LOST, Result.OUT_OF_DATE, Result.INVALID_AGILITY_SDK])
      ∧ (0 < r.value ↔
          r ∈ [Result.FAILURE, Result.INVALID_ARGUMENT, Result.OUT_OF_MEMORY,
               Result.UNSUPPORTED])
      ∧ (r.triggersAbort = true ↔ 0 < r.value)
      ∧ r ∈ Result.all := by
  cases r <;> simp [Result.value, Result.triggersAbort, Result.all]

/-- C8: the lazy defaults are the zero values. `AccessBits::NONE`, `StageBits::ALL`
and `Layout::UNDEFINED` all have the numeric value 0, so an `AccessStage` is
zero-initialised exactly when it is `{NONE, ALL}` and an `AccessLayoutStage` is
zero-initialised exactly when it is `{NONE, UNDEFINED, ALL}`. -/
theorem zero_init_barrier_scope_defaults :
    AccessBits.NONE = 0 ∧ StageBits.ALL = 0 ∧ Layout.UNDEFINED.value = 0
      ∧ (∀ s : AccessStage,
          s.isZeroInit ↔ s = { access := AccessBits.NONE, stages := StageBits.ALL })
      ∧ (∀ s : AccessLayoutStage,
          s.isZeroInit ↔
            s = { access := AccessBits.NONE, layout := Layout.UNDEFINED,
                  stages := StageBits.ALL }) := by
  refine ⟨rfl, rfl, rfl, ?_, ?_⟩
  · rintro ⟨a, st⟩
    simp [AccessStage.isZeroInit, AccessBits.NONE, StageBits.ALL]
  · rintro ⟨a, l, st⟩
    cases l <;>
      simp [AccessLayoutStage.isZeroInit, AccessBits.NONE, StageBits.ALL, Layout.value]

/-- C9: textures default to concurrent sharing. `CONCURRENT`, `EXCLUSIVE` and
`SIMULTANEOUS` have the values 0, 1 and 2; a `TextureDesc` has its `sharingMode`
member zero-initialised exactly when that member is `CONCURRENT`, and a
descriptor whose member is `EXCLUSIVE` or `SIMULTANEOUS` stores a non-zero
number there. -/
theorem texture_sharing_mode_default (d : TextureDesc) :
    SharingMode.CONCURRENT.value = 0 ∧ SharingMode.EXCLUSIVE.value = 1
      ∧ SharingMode.SIMULTANEOUS.value = 2
      ∧ (d.sharingModeZeroInit ↔ d.sharingMode = SharingMode.CONCURRENT)
      ∧ (d.sharingMode = SharingMode.EXCLUSIVE ∨ d.sharingMode = SharingMode.SIMULTANEOUS ↔
          d.sharingMode.value ≠ 0) := by
  refine ⟨rfl, rfl, rfl, ?_, ?_⟩
  · cases h : d.sharingMode <;>
      simp [TextureDesc.sharingModeZeroInit, SharingMode.value, h]
  · cases h : d.sharingMode <;> simp [SharingMode.value]

/-- C10: every sRGB format directly follows the UNORM format of the same channel
layout, so subtracting 1 from its value demotes it: `BGRA8_SRGB`, `RGBA8_SRGB`,
`BC1_RGBA_SRGB`, `BC2_RGBA_SRGB`, `BC3_RGBA_SRGB` and `BC7_RGBA_SRGB` (these six
are all the sRGB members) have a positive value and the format numbered one
less is `BGRA8_UNORM`, `RGBA8_UNORM`, `BC1_RGBA_UNORM`, `BC2_RGBA_UNORM`,
`BC3_RGBA_UNORM` and `BC7_RGBA_UNORM` respectively. -/
theorem srgb_demotes_to_previous_unorm :
    (∀ f : Format, f.isSRGB = true ↔
        f ∈ [Format.BGRA8_SRGB, Format.RGBA8_SRGB, Format.BC1_RGBA_SRGB,
             Format.BC2_RGBA_SRGB, Format.BC3_RGBA_SRGB, Format.BC7_RGBA_SRGB])
      ∧ (∀ f : Format, f.isSRGB = true → 1 ≤ f.value ∧ f.demote = Format.ofValue (f.value - 1))
      ∧ Format.ofValue (Format.BGRA8_SRGB.value - 1) = some Format.BGRA8_UNORM
      ∧ Format.ofValue (Format.RGBA8_SRGB.value - 1) = some Format.RGBA8_UNORM
      ∧ Format.ofValue (Format.BC1_RGBA_SRGB.value - 1) = some Format.BC1_RGBA_UNORM
      ∧ Format.ofValue (Format.BC2_RGBA_SRGB.value - 1) = some Format.BC2_RGBA_UNORM
      ∧ Format.ofValue (Format.BC3_RGBA_SRGB.value - 1) = some Format.BC3_RGBA_UNORM
      ∧ Format.ofValue (Format.BC7_RGBA_SRGB.value - 1) = some Format.BC7_RGBA_UNORM := by
  refine ⟨?_, ?_, by decide, by decide, by decide, by decide, by decide, by decide⟩
  · intro f; cases f <;> decide
  · intro f; cases f <;> decide

/-! ### `__compileShader` -/

namespace ShaderCompiler

theorem diagnoseIfNeeded_heap (diagnosticsBlob : Option String) (w : World) :
    (diagnoseIfNeeded diagnosticsBlob w).heap = w.heap := by
  cases diagnosticsBlob <;> rfl

theorem memcpy_fresh (src : Bytes) : memcpy (fresh src.length) src src.length = src := by
  simp [memcpy, fresh]

/-- What a returning `deliver` was given and what it returns. -/
theorem deliver_inv (libc : Libc) (spirvCode reflectionJson : Option Bytes) (w : World)
    (r : Returned) (h : deliver libc spirvCode reflectionJson w = .ok r) :
    ∃ a b, spirvCode = some a ∧ reflectionJson = some b
      ∧ r.status = 0
      ∧ r.world = { w with heap := (libc.malloc (libc.malloc w.heap a.length).2 b.length).2 }
      ∧ r.outs =
          { outSpirvCode := if (libc.malloc w.heap a.length).1 then some a else none
            outSpirvCodeLen := a.length
            outReflection :=
              if (libc.malloc (libc.malloc w.heap a.length).2 b.length).1 then some b else none
            outReflectionLen := b.length } := by
  cases spirvCode with
  | none => simp [deliver] at h
  | some a =>
    cases reflectionJson with
    | none => simp [deliver] at h
    | some b =>
      refine ⟨a, b, rfl, rfl, ?_⟩
      simp only [deliver, memcpy_fresh, Except.ok.injEq] at h
      subst h
      exact ⟨rfl, rfl, rfl⟩

theorem deliver_status_indep (libc : Libc) (a b : Option Bytes) (w₁ w₂ : World) :
    (deliver libc a b w₁).map Returned.status = (deliver libc a b w₂).map Returned.status := by
  cases a <;> cases b <;> rfl

/-- A call that returns, returns 0 or a negative status. -/
theorem compileShader_status_nonpos (slang : Slang) (libc : Libc) (name path input : String)
    (outs : Outs) (w : World) (r : Returned)
    (h : __compileShader slang libc name path input outs w = .ok r) : r.status ≤ 0 := by
  unfold __compileShader at h
  repeat' (first | split at h | dsimp only at h)
  all_goals first
    | (cases h; done)
    | (obtain ⟨_, _, _, _, h0, _, _⟩ := deliver_inv _ _ _ _ _ h; omega)
    | (cases h; simp_all [SLANG_FAILED]; done)
    | (cases h; simp_all [SLANG_FAILED]; exact le_of_lt (by assumption))

/-- A call that returns 0 went through every step and delivered through
`deliver`. -/
theorem compileShader_zero_inv (slang : Slang) (libc : Libc) (name path input : String)
    (outs : Outs) (w : World) (r : Returned)
    (h : __compileShader slang libc name path input outs w = .ok r) (h0 : r.status = 0) :
    DeliveredFrom slang libc name path input w r := by
  unfold __compileShader at h
  repeat' (first | split at h | dsimp only at h)
  all_goals first
    | (cases h; done)
    | (cases h; simp_all [SLANG_FAILED])
    | skip
  obtain ⟨a, b, ha, hb, -, -, ho⟩ := deliver_inv _ _ _ _ _ h
  refine ⟨_, _, _, _, _, _, _, _, _, _, by assumption, by assumption, by assumption,
    by assumption, by assumption, ha, by assumption, hb, ?_, ?_, ?_, ?_⟩
  all_goals simp only [ho, diagnoseIfNeeded_heap]

/-- Whether a call faults or returns, and the status it returns, do not depend
on the output parameters' old values nor on what was printed or allocated
before. -/
theorem compileShader_status_indep (slang : Slang) (libc : Libc) (name path input : String)
    (outs₁ outs₂ : Outs) (w₁ w₂ : World) :
    (__compileShader slang libc name path input outs₁ w₁).map Returned.status
      = (__compileShader slang libc name path input outs₂ w₂).map Returned.status := by
  unfold __compileShader
  repeat' (first | split | dsimp only)
  all_goals first
    | rfl
    | exact deliver_status_indep _ _ _ _ _

/-- C5: the failing input. With an external compiler whose `createGlobalSession`
fails (negative status, no session written), `__compileShader` does not return
a negative status: whatever the name, path and source text, it ignores the
status and calls `findProfile` through the null session pointer. -/
theorem compileShader_null_global_session :
    SLANG_FAILED Example.slangNoGlobalSession.createGlobalSession.1 = true
      ∧ ∀ (libc : Libc) (name path input : String) (outs : Outs) (w : World),
          __compileShader Example.slangNoGlobalSession libc name path input outs w
            = .error Fault.globalSession := by
  refine ⟨by decide, ?_⟩
  intro libc name path input outs w
  rfl

/-- C6, as stated, fails: every step of the compiler succeeds, both `malloc`
requests fail, and `__compileShader` returns 0 with the two sizes (4 and 2) but
with null pointers instead of the 4 bytes of code and the 2 bytes of
reflection. -/
theorem compileShader_zero_with_null_buffers :
    __compileShader Example.slangOk Example.libcExhausted "s" "s.slang" ""
        Example.outsNull (Example.world 0)
      = .ok { status := 0, world := Example.world 0, outs := Example.outsLengthsOnly }
      ∧ Example.outsLengthsOnly.outSpirvCode = none
      ∧ Example.outsLengthsOnly.outReflection = none
      ∧ (Example.slangOk.getTargetCode { handle := 2 } 0).2.1 = some [3, 2, 35, 7]
      ∧ (Example.slangOk.toJson { handle := 1 }).2 = some [123, 125] := by
  exact ⟨rfl, rfl, rfl, rfl, rfl⟩

/-- C6, amended: whenever `__compileShader` returns 0, both sizes are delivered
(`*outSpirvCodeLen` and `*outReflectionLen` are the sizes of the code blob and of
the reflection blob), and each of `*outSpirvCode`, `*outReflection` is null when
its `malloc` request failed and otherwise refers to a buffer of that size whose
content equals the blob. -/
theorem compileShader_zero_delivers (slang : Slang) (libc : Libc) (name path input : String)
    (outs : Outs) (w : World) (r : Returned)
    (h : __compileShader slang libc name path input outs w = .ok r) (h0 : r.status = 0) :
    DeliveredFrom slang libc name path input w r :=
  compileShader_zero_inv slang libc name path input outs w r h h0

/-- C6, amended, at a concrete input: with six free bytes both buffers are
allocated and filled. -/
theorem compileShader_zero_delivers_witness :
    __compileShader Example.slangOk Example.libcBounded "s" "s.slang" ""
        Example.outsNull (Example.world 6)
      = .ok { status := 0, world := Example.world 0, outs := Example.outsFull }
      ∧ ({ status := 0, world := Example.world 0, outs := Example.outsFull } : Returned).status
          = 0
      ∧ DeliveredFrom Example.slangOk Example.libcBounded "s" "s.slang" "" (Example.world 6)
          { status := 0, world := Example.world 0, outs := Example.outsFull } :=
  ⟨rfl, rfl,
   compileShader_zero_delivers Example.slangOk Example.libcBounded "s" "s.slang" ""
     Example.outsNull (Example.world 6) _ rfl rfl⟩

/-- C7, as stated, fails: the same compiler, allocator, name, path and source
text, called twice in a row. The first call finds six free bytes and returns 0
with the 4 bytes of code and the 2 bytes of reflection; the second call, run in
the process the first one left, returns 0 with null pointers. -/
theorem compileShader_second_call_null_buffers :
    __compileShader Example.slangOk Example.libcBounded "s" "s.slang" ""
        Example.outsNull (Example.world 6)
      = .ok { status := 0, world := Example.world 0, outs := Example.outsFull }
      ∧ __compileShader Example.slangOk Example.libcBounded "s" "s.slang" ""
          Example.outsFull (Example.world 0)
        = .ok { status := 0, world := Example.world 0, outs := Example.outsLengthsOnly }
      ∧ Example.outsFull.outSpirvCode = some [3, 2, 35, 7]
      ∧ Example.outsLengthsOnly.outSpirvCode = none
      ∧ Example.outsFull.outReflection = some [123, 125]
      ∧ Example.outsLengthsOnly.outReflection = none :=
  ⟨rfl, rfl, rfl, rfl, rfl, rfl⟩

/-- C7, amended: `__compileShader` retains no state across calls. For one
(deterministic) external compiler and allocator, two calls with the same name,
path and source text, started in any two states of the process (whatever was
printed and allocated before, whatever the output parameters held), either hit
the same null pointer or both return, with the same status; when that status is
0 they report the same two sizes, and an output buffer allocated in both calls
holds the same bytes in both. Only whether an output pointer is null depends on
the heap. -/
theorem compileShader_retains_no_state (slang : Slang) (libc : Libc)
    (name path input : String) (outs₁ outs₂ : Outs) (w₁ w₂ : World) :
    match __compileShader slang libc name path input outs₁ w₁,
          __compileShader slang libc name path input outs₂ w₂ with
    | .ok r₁, .ok r₂ =>
        r₁.status = r₂.status
        ∧ (r₁.status = 0 →
            r₁.outs.outSpirvCodeLen = r₂.outs.outSpirvCodeLen
            ∧ r₁.outs.outReflectionLen = r₂.outs.outReflectionLen
            ∧ (∀ b₁ b₂, r₁.outs.outSpirvCode = some b₁ → r₂.outs.outSpirvCode = some b₂ →
                b₁ = b₂)
            ∧ (∀ b₁ b₂, r₁.outs.outReflection = some b₁ → r₂.outs.outReflection = some b₂ →
                b₁ = b₂))
    | .error f₁, .error f₂ => f₁ = f₂
    | _, _ => False := by
  have hs := compileShader_status_indep slang libc name path input outs₁ outs₂ w₁ w₂
  cases h₁ : __compileShader slang libc name path input outs₁ w₁ with
  | error f₁ =>
    cases h₂ : __compileShader slang libc name path input outs₂ w₂ with
    | error f₂ => simpa [h₁, h₂, Except.map] using hs
    | ok r₂ => simp [h₁, h₂, Except.map] at hs
  | ok r₁ =>
    cases h₂ : __compileShader slang libc name path input outs₂ w₂ with
    | error f₂ => simp [h₁, h₂, Except.map] at hs
    | ok r₂ =>
      have hst : r₁.status = r₂.status := by simpa [h₁, h₂, Except.map] using hs
      refine ⟨hst, ?_⟩
      intro h0
      obtain ⟨g, s₀, m, d, s, p, lp, sp, l, rj, hg, hs₀, hm, hp, hlp, hsp, hl, hrj,
        hlen₁, hbuf₁, hrlen₁, hrbuf₁⟩ := compileShader_zero_inv _ _ _ _ _ _ _ _ h₁ h0
      obtain ⟨g', s₀', m', d', s', p', lp', sp', l', rj', hg', hs₀', hm', hp', hlp', hsp',
        hl', hrj', hlen₂, hbuf₂, hrlen₂, hrbuf₂⟩ :=
        compileShader_zero_inv _ _ _ _ _ _ _ _ h₂ (hst ▸ h0)
      rw [hg] at hg'; cases hg'
      rw [hs₀] at hs₀'; cases hs₀'
      rw [hm] at hm'; cases hm'
      rw [hp] at hp'; cases hp'
      rw [hlp] at hlp'; cases hlp'
      rw [hsp] at hsp'; cases hsp'
      rw [hl] at hl'; cases hl'
      rw [hrj] at hrj'; cases hrj'
      refine ⟨by rw [hlen₁, hlen₂], by rw [hrlen₁, hrlen₂], ?_, ?_⟩
      · intro b₁ b₂ e₁ e₂
        rw [hbuf₁] at e₁; rw [hbuf₂] at e₂
        split at e₁ <;> split at e₂ <;> simp_all
      · intro b₁ b₂ e₁ e₂
        rw [hrbuf₁] at e₁; rw [hrbuf₂] at e₂
        split at e₁ <;> split at e₂ <;> simp_all

/-- What `diagnoseIfNeeded` does: it appends the text when there is a blob and
changes nothing else. -/
theorem diagnoseIfNeeded_spec (diagnosticsBlob : Option String) (w : World) :
    (diagnoseIfNeeded diagnosticsBlob w).stdout = w.stdout ++ diagnosticsBlob.toList
      ∧ (diagnoseIfNeeded diagnosticsBlob w).heap = w.heap
      ∧ ((diagnoseIfNeeded diagnosticsBlob w).stdout ≠ w.stdout ↔ diagnosticsBlob ≠ none) := by
  cases diagnosticsBlob <;> simp [diagnoseIfNeeded]

theorem deliver_outcome_indep (libc : Libc) (a b : Option Bytes) (w₁ w₂ : World)
    (h : w₁.heap = w₂.heap) :
    (deliver libc a b w₁).map Returned.outcome = (deliver libc a b w₂).map Returned.outcome := by
  cases a <;> cases b <;> simp [deliver, Except.map, Returned.outcome, h]

theorem deliver_stdout (libc : Libc) (a b : Option Bytes) (w : World) (r : Returned)
    (h : deliver libc a b w = .ok r) : r.world.stdout = w.stdout := by
  obtain ⟨_, _, _, _, _, hw, _⟩ := deliver_inv _ _ _ _ _ h
  rw [hw]

theorem components_silenced (slang : Slang) (m : IModule) :
    components (silenced slang) m = components slang m := rfl

/-- Withholding every diagnostics blob changes neither whether the call faults
nor the status, the output parameters and the heap it returns. -/
theorem compileShader_outcome_silenced (slang : Slang) (libc : Libc)
    (name path input : String) (outs : Outs) (w : World) :
    (__compileShader slang libc name path input outs w).map Returned.outcome
      = (__compileShader (silenced slang) libc name path input outs w).map
          Returned.outcome := by
  unfold __compileShader
  simp only [components_silenced]
  simp only [silenced]
  repeat' (first | split | dsimp only)
  all_goals first
    | rfl
    | (exact deliver_outcome_indep _ _ _ _ _ (by simp [diagnoseIfNeeded_heap]))
    | (simp_all [Except.map, Returned.outcome, diagnoseIfNeeded_heap]; done)
    | skip
  rename_i h7 _ _ h6 _ _ _ h5 _ _ _ h4 _ _ _ _ _ h3 _ _ h2 _ _ _ h1 _ _ _ h0 _
  simp only [h7, Prod.mk.injEq] at h3
  obtain ⟨hm, -, hs⟩ := h3
  cases hm; cases hs
  rw [h6] at h2; cases h2
  have e1 := h5.symm.trans h1
  cases e1
  have e0 := h4.symm.trans h0
  cases e0
  exact deliver_outcome_indep _ _ _ _ _ (by simp [diagnoseIfNeeded_heap])

/-- A compiler that writes no diagnostics leaves the log as it was. -/
theorem compileShader_silenced_logs_nothing (slang : Slang) (libc : Libc)
    (name path input : String) (outs : Outs) (w : World) (r : Returned)
    (h : __compileShader (silenced slang) libc name path input outs w = .ok r) :
    r.world.stdout = w.stdout := by
  unfold __compileShader at h
  simp only [silenced] at h
  split at h
  · cases h
  next g hg =>
    split at h
    · cases h
    next s0 hs0 =>
      cases hm : (slang.loadModuleFromSourceString s0 name path input).1 with
      | none =>
        simp only [hm] at h
        cases h
        rfl
      | some m =>
        simp only [hm] at h
        repeat' (first | split at h | dsimp only at h)
        all_goals first
          | (cases h; done)
          | (cases h; rfl)
          | exact deliver_stdout _ _ _ _ _ h

/-- Where a returned status comes from: -1 when no module was loaded, the
negative result code of `link`, `getTargetCode` or `toJson`, or 0. -/
theorem compileShader_status_cases (slang : Slang) (libc : Libc) (name path input : String)
    (outs : Outs) (w : World) (r : Returned)
    (h : __compileShader slang libc name path input outs w = .ok r) :
    (r.status = -1
        ∧ ∃ session, (slang.loadModuleFromSourceString session name path input).1 = none)
      ∨ (∃ program, r.status = (slang.link program).1 ∧ (slang.link program).1 < 0)
      ∨ (∃ linkedProgram, r.status = (slang.getTargetCode linkedProgram 0).1
            ∧ (slang.getTargetCode linkedProgram 0).1 < 0)
      ∨ (∃ layout, r.status = (slang.toJson layout).1 ∧ (slang.toJson layout).1 < 0)
      ∨ r.status = 0 := by
  unfold __compileShader at h
  repeat' (first | split at h | dsimp only at h)
  all_goals first
    | (cases h; done)
    | (cases h
       rename_i heq
       exact Or.inl ⟨rfl, _, by rw [heq]⟩)
    | (cases h
       rename_i hf
       simp only [SLANG_FAILED, decide_eq_true_eq] at hf
       first
         | exact Or.inr (Or.inl ⟨_, rfl, hf⟩)
         | exact Or.inr (Or.inr (Or.inl ⟨_, rfl, hf⟩))
         | exact Or.inr (Or.inr (Or.inr (Or.inl ⟨_, rfl, hf⟩))))
    | (obtain ⟨_, _, _, _, h0, _, _⟩ := deliver_inv _ _ _ _ _ h
       exact Or.inr (Or.inr (Or.inr (Or.inr h0))))

/-- C20: diagnostics never decide the outcome of `__compileShader`.
`diagnoseIfNeeded` appends the text to the log exactly when the blob is not null
and changes nothing else; a call returns the same status, output parameters and
heap (or hits the same null pointer) as with a compiler that differs only in
writing no diagnostics, and that one logs nothing; a returned status is -1 (no
module loaded), the negative result code of link, code generation or
reflection, or 0; and a compiler whose steps all succeed with warnings makes
the call return 0 with both blobs, the warnings being in the log. -/
theorem diagnostics_never_decide (slang : Slang) (libc : Libc) (name path input : String)
    (outs : Outs) (w : World) :
    (∀ (diagnosticsBlob : Option String) (w' : World),
        (diagnoseIfNeeded diagnosticsBlob w').stdout = w'.stdout ++ diagnosticsBlob.toList
          ∧ (diagnoseIfNeeded diagnosticsBlob w').heap = w'.heap
          ∧ ((diagnoseIfNeeded diagnosticsBlob w').stdout ≠ w'.stdout ↔
              diagnosticsBlob ≠ none))
      ∧ (__compileShader slang libc name path input outs w).map Returned.outcome
          = (__compileShader (silenced slang) libc name path input outs w).map
              Returned.outcome
      ∧ (∀ r, __compileShader (silenced slang) libc name path input outs w = .ok r →
          r.world.stdout = w.stdout)
      ∧ (∀ r, __compileShader slang libc name path input outs w = .ok r →
          (r.status = -1
              ∧ ∃ session,
                  (slang.loadModuleFromSourceString session name path input).1 = none)
            ∨ (∃ program, r.status = (slang.link program).1 ∧ (slang.link program).1 < 0)
            ∨ (∃ linkedProgram, r.status = (slang.getTargetCode linkedProgram 0).1
                  ∧ (slang.getTargetCode linkedProgram 0).1 < 0)
            ∨ (∃ layout, r.status = (slang.toJson layout).1 ∧ (slang.toJson layout).1 < 0)
            ∨ r.status = 0)
      ∧ __compileShader Example.slangWarnings Example.libcBounded "s" "s.slang" ""
            Example.outsNull (Example.world 6)
          = .ok { status := 0
                  world := { stdout := ["warning: load", "warning: link", "warning: code"]
                             heap := 0 }
                  outs := Example.outsFull } :=
  ⟨diagnoseIfNeeded_spec,
   compileShader_outcome_silenced slang libc name path input outs w,
   compileShader_silenced_logs_nothing slang libc name path input outs w,
   compileShader_status_cases slang libc name path input outs w,
   rfl⟩

/-! #### Failed calls and the component list -/

/-- C21: a non-zero status leaves the output parameters alone. Whenever
`__compileShader` returns a status other than 0, the four output parameters
`outSpirvCode`, `outSpirvCodeLen`, `outReflection` and `outReflectionLen` hold
what they held before the call: every `return` of a non-zero status (lines 55,
83, 97, 109) comes before the first store through an output pointer (line
114). -/
theorem compileShader_failure_leaves_outputs (slang : Slang) (libc : Libc)
    (name path input : String) (outs : Outs) (w : World) (r : Returned)
    (h : __compileShader slang libc name path input outs w = .ok r) (hs : r.status ≠ 0) :
    r.outs = outs
      ∧ r.outs.outSpirvCode = outs.outSpirvCode
      ∧ r.outs.outSpirvCodeLen = outs.outSpirvCodeLen
      ∧ r.outs.outReflection = outs.outReflection
      ∧ r.outs.outReflectionLen = outs.outReflectionLen := by
  have key : r.outs = outs := by
    unfold __compileShader at h
    repeat' (first | split at h | dsimp only at h)
    all_goals first
      | (cases h; done)
      | (cases h; rfl)
      | (obtain ⟨_, _, _, _, h0, _, _⟩ := deliver_inv _ _ _ _ _ h
         exact absurd h0 hs)
  exact ⟨key, by rw [key], by rw [key], by rw [key], by rw [key]⟩

/-- A call whose `link` step fails with -5 returns -5, prints the diagnostics and
leaves the four output parameters, which held the blobs of an earlier call, as
they were. -/
theorem compileShader_failure_leaves_outputs_witness :
    (__compileShader Example.slangLinkFails Example.libcBounded "s" "s.slang" ""
        Example.outsFull (Example.world 64)
      = .ok { status := -5
              world := { stdout := ["error: link"], heap := 64 }
              outs := Example.outsFull })
    ∧ (-5 : Int) ≠ 0
    ∧ Example.outsFull.outSpirvCode = some [3, 2, 35, 7]
    ∧ Example.outsFull.outSpirvCodeLen = 4
    ∧ Example.outsFull.outReflection = some [123, 125]
    ∧ Example.outsFull.outReflectionLen = 2 :=
  ⟨rfl, by decide,
    (compileShader_failure_leaves_outputs Example.slangLinkFails Example.libcBounded
      "s" "s.slang" "" Example.outsFull (Example.world 64)
      { status := -5, world := { stdout := ["error: link"], heap := 64 },
        outs := Example.outsFull } rfl (by decide)).2⟩

/-- The loop of lines 65-70 leaves the length of the vector as it was. -/
theorem components_loop_length (f : Nat → Option ComponentRef) (k : Nat)
    (init : List (Option ComponentRef)) :
    ((List.range k).foldl (fun components i => components.set (i + 1) (f i)) init).length
      = init.length := by
  induction k with
  | zero => rfl
  | succ k ih =>
    rw [List.range_succ, List.foldl_append]
    simp only [List.foldl_cons, List.foldl_nil, List.length_set, ih]

/-- The loop of lines 65-70 over the first `k` indices writes positions `1..k`
and no other. -/
theorem components_loop (f : Nat → Option ComponentRef) (k : Nat)
    (init : List (Option ComponentRef)) (j : Nat) :
    ((List.range k).foldl (fun components i => components.set (i + 1) (f i)) init)[j]?
      = if 1 ≤ j ∧ j ≤ k ∧ j < init.length then some (f (j - 1)) else init[j]? := by
  induction k with
  | zero =>
    have : ¬ (1 ≤ j ∧ j ≤ 0 ∧ j < init.length) := by omega
    rw [if_neg this]
    rfl
  | succ k ih =>
    rw [List.range_succ, List.foldl_append]
    simp only [List.foldl_cons, List.foldl_nil]
    rw [List.getElem?_set, components_loop_length, ih]
    by_cases hj : k + 1 = j
    · subst hj
      by_cases hl : k + 1 < init.length
      · simp [hl]
      · have : init[k + 1]? = none := List.getElem?_eq_none (by omega)
        simp [hl, this]
    · rw [if_neg hj]
      by_cases h1 : 1 ≤ j ∧ j ≤ k ∧ j < init.length
      · rw [if_pos h1, if_pos ⟨h1.1, by omega, h1.2.2⟩]
      · rw [if_neg h1, if_neg (by omega)]

/-- The component list in closed form: the module, then for each index below
the entry-point count what `getDefinedEntryPoint` wrote for it. -/
theorem components_eq (slang : Slang) (slangModule : IModule) :
    components slang slangModule
      = some (ComponentRef.module slangModule)
        :: (List.range (slang.getDefinedEntryPointCount slangModule)).map
            (fun i =>
              (slang.getDefinedEntryPoint slangModule i).2.map ComponentRef.entryPoint) := by
  apply List.ext_getElem?
  intro j
  unfold components
  dsimp only
  rw [components_loop (fun i => (slang.getDefinedEntryPoint slangModule i).2.map
    ComponentRef.entryPoint)]
  cases j with
  | zero => simp [Nat.add_comm 1, List.replicate_succ]
  | succ j =>
    simp only [Nat.add_comm 1, List.replicate_succ, List.set_cons_zero, List.length_cons,
      List.length_replicate, List.getElem?_cons_succ, Nat.add_sub_cancel]
    by_cases hj : j < slang.getDefinedEntryPointCount slangModule
    · rw [if_pos ⟨by omega, by omega, by omega⟩, List.getElem?_map,
        List.getElem?_range hj]
      rfl
    · rw [if_neg (by omega), List.getElem?_eq_none (by simpa using hj),
        List.getElem?_eq_none (by simpa using hj)]

/-- C22: the component list is the module followed by its entry points. For a
module that defines `n` entry points (`getDefinedEntryPointCount` gives `n` and
`getDefinedEntryPoint(i, ..)` writes entry point `i` for every `i < n`), the list
that `__compileShader` builds in lines 61-70 and hands to
`createCompositeComponentType` is the module followed by the entry points
`0, .., n - 1` in that order: it has `n + 1` elements, the module at position 0,
entry point `i` at position `i + 1`, and no null position. -/
theorem components_module_then_entry_points (slang : Slang) (slangModule : IModule)
    (n : Nat) (entryPoint : Nat → IEntryPoint)
    (hcount : slang.getDefinedEntryPointCount slangModule = n)
    (hdefined : ∀ i, i < n →
      (slang.getDefinedEntryPoint slangModule i).2 = some (entryPoint i)) :
    components slang slangModule
        = some (ComponentRef.module slangModule)
          :: (List.range n).map (fun i => some (ComponentRef.entryPoint (entryPoint i)))
      ∧ (components slang slangModule).length = n + 1
      ∧ (components slang slangModule)[0]? = some (some (ComponentRef.module slangModule))
      ∧ (∀ i, i < n → (components slang slangModule)[i + 1]?
            = some (some (ComponentRef.entryPoint (entryPoint i))))
      ∧ (∀ c ∈ components slang slangModule, c ≠ none) := by
  have key : components slang slangModule
      = some (ComponentRef.module slangModule)
        :: (List.range n).map (fun i => some (ComponentRef.entryPoint (entryPoint i))) := by
    rw [components_eq, hcount]
    congr 1
    apply List.map_congr_left
    intro i hi
    rw [hdefined i (List.mem_range.mp hi)]
    rfl
  refine ⟨key, ?_, ?_, ?_, ?_⟩
  · rw [key]; simp
  · rw [key]; simp
  · intro i hi
    rw [key, List.getElem?_cons_succ, List.getElem?_map, List.getElem?_range hi]
    rfl
  · intro c hc
    rw [key] at hc
    rcases List.mem_cons.mp hc with rfl | hc
    · simp
    · obtain ⟨i, -, rfl⟩ := List.mem_map.mp hc
      simp

/-- For a module of three entry points the list is the module and the entry
points 0, 1, 2. -/
theorem components_module_then_entry_points_witness :
    Example.slangThreeEntryPoints.getDefinedEntryPointCount { handle := 1 } = 3
    ∧ components Example.slangThreeEntryPoints { handle := 1 }
        = [some (ComponentRef.module { handle := 1 }),
           some (ComponentRef.entryPoint { handle := 0 }),
           some (ComponentRef.entryPoint { handle := 1 }),
           some (ComponentRef.entryPoint { handle := 2 })] :=
  ⟨rfl, (components_module_then_entry_points Example.slangThreeEntryPoints { handle := 1 } 3
    (fun i => { handle := i }) rfl (fun _ _ => rfl)).1⟩

end ShaderCompiler

/-! ### Swap chain, colour write mask, upscaler -/

theorem toUInt64_lt (x : Int) : toUInt64 x < 2 ^ 64 := by
  unfold toUInt64
  have h : (0 : Int) < 2 ^ 64 := by norm_num
  have h1 := Int.emod_lt_of_pos x h
  have h2 := Int.emod_nonneg x (ne_of_gt h)
  omega

/-- C11: `SWAPCHAIN_SEMAPHORE` is `(uint64_t)(-1) = 2^64 - 1`, the largest value
of a 64-bit counter: it is not 0, and every 64-bit value (every value a host
`Wait` can name) is at most it. -/
theorem swapchain_semaphore_is_max :
    SWAPCHAIN_SEMAPHORE = 2 ^ 64 - 1
      ∧ SWAPCHAIN_SEMAPHORE = toUInt64 (-1)
      ∧ SWAPCHAIN_SEMAPHORE ≠ 0
      ∧ (∀ x : Int, toUInt64 x ≤ SWAPCHAIN_SEMAPHORE)
      ∧ (∀ v : Nat, v < 2 ^ 64 → toUInt64 v = v ∧ v ≤ SWAPCHAIN_SEMAPHORE) := by
  have hv : SWAPCHAIN_SEMAPHORE = 2 ^ 64 - 1 := by decide
  refine ⟨hv, rfl, by rw [hv]; decide, ?_, ?_⟩
  · intro x
    have := toUInt64_lt x
    rw [hv]; omega
  · intro v hvlt
    refine ⟨?_, by rw [hv]; omega⟩
    unfold toUInt64
    have h : ((v : Int) % 2 ^ 64) = v := Int.emod_eq_of_lt (by omega) (by exact_mod_cast hvlt)
    rw [h]; simp

/-- C12: in the documented frame loop with `QUEUED_FRAME_NUM >= 1`, the value
frame `frameIndex` waits for is 0 while `frameIndex < QUEUED_FRAME_NUM` and
otherwise the value signalled by frame `frameIndex - QUEUED_FRAME_NUM`; it is at
most `frameIndex`, every frame that signals it is an earlier frame, and the
current and later frames signal strictly more. -/
theorem frame_fence_wait_value (QUEUED_FRAME_NUM frameIndex : Nat)
    (hq : 1 ≤ QUEUED_FRAME_NUM) :
    (frameIndex < QUEUED_FRAME_NUM → frameFenceWaitValue QUEUED_FRAME_NUM frameIndex = 0)
      ∧ (QUEUED_FRAME_NUM ≤ frameIndex →
          frameFenceWaitValue QUEUED_FRAME_NUM frameIndex
            = frameFenceSignalValue (frameIndex - QUEUED_FRAME_NUM))
      ∧ frameFenceWaitValue QUEUED_FRAME_NUM frameIndex ≤ frameIndex
      ∧ (∀ j, frameFenceSignalValue j = frameFenceWaitValue QUEUED_FRAME_NUM frameIndex →
          j < frameIndex)
      ∧ (∀ j, frameIndex ≤ j →
          frameFenceWaitValue QUEUED_FRAME_NUM frameIndex < frameFenceSignalValue j) := by
  unfold frameFenceWaitValue frameFenceSignalValue
  refine ⟨?_, ?_, ?_, ?_, ?_⟩
  · intro h; rw [if_neg (by omega)]
  · intro h; rw [if_pos h]; omega
  · split <;> omega
  · intro j; split <;> omega
  · intro j hj; split <;> omega

/-- C12 at a concrete input: two queued frames, frame 5 waits for the value
frame 3 signals, which is at most 5; frame 1 waits for 0. -/
theorem frame_fence_wait_value_witness :
    1 ≤ 2
      ∧ frameFenceWaitValue 2 5 = frameFenceSignalValue 3
      ∧ frameFenceWaitValue 2 5 ≤ 5
      ∧ frameFenceWaitValue 2 1 = 0 :=
  ⟨by decide,
   (frame_fence_wait_value 2 5 (by decide)).2.1 (by decide),
   (frame_fence_wait_value 2 5 (by decide)).2.2.1,
   (frame_fence_wait_value 2 1 (by decide)).1 (by decide)⟩

/-- C18: the umbrella aliases of `ColorWriteBits` are the unions of their
members: `RGB = R | G | B = 7` and `RGBA = R | G | B | A = 15`, the four channel
bits being the single bits 1, 2, 4, 8, pairwise distinct and disjoint. -/
theorem color_write_bits_unions :
    ColorWriteBits.RGB = (ColorWriteBits.R ||| ColorWriteBits.G ||| ColorWriteBits.B)
      ∧ ColorWriteBits.RGB = 7
      ∧ ColorWriteBits.RGBA =
          (ColorWriteBits.R ||| ColorWriteBits.G ||| ColorWriteBits.B ||| ColorWriteBits.A)
      ∧ ColorWriteBits.RGBA = 15
      ∧ ColorWriteBits.channels = [1, 2, 4, 8]
      ∧ (∀ c ∈ ColorWriteBits.channels, ∃ n, n < 4 ∧ c = 2 ^ n)
      ∧ ColorWriteBits.channels.Pairwise (fun a b => a ≠ b ∧ a &&& b = 0) := by
  refine ⟨by decide, by decide, by decide, by decide, by decide, ?_, by decide⟩
  intro c hc
  simp only [ColorWriteBits.channels, List.mem_cons, List.mem_singleton, List.not_mem_nil,
    or_false] at hc
  rcases hc with h | h | h | h
  · exact ⟨0, by decide, by rw [h]; decide⟩
  · exact ⟨1, by decide, by rw [h]; decide⟩
  · exact ⟨2, by decide, by rw [h]; decide⟩
  · exact ⟨3, by decide, by rw [h]; decide⟩

/-- C19: the failing input. For `BALANCED` the table documents 23 phases at the
scaling factor 1.7, while `ceil(8 * 1.7 ^ 2) = ceil(23.12) = 24`; for the other
five modes the documented number is `ceil(8 * scalingFactor ^ 2)`. -/
theorem jitter_phases_balanced_mismatch :
    UpscalerMode.minJitterPhases UpscalerMode.BALANCED = 23
      ∧ UpscalerMode.scalingFactor UpscalerMode.BALANCED = 17 / 10
      ∧ jitterPhaseNum (UpscalerMode.scalingFactor UpscalerMode.BALANCED) = 24
      ∧ (∀ m : UpscalerMode, m ≠ UpscalerMode.BALANCED →
          UpscalerMode.minJitterPhases m = jitterPhaseNum (UpscalerMode.scalingFactor m)) := by
  refine ⟨rfl, rfl, ?_, ?_⟩
  · unfold jitterPhaseNum UpscalerMode.scalingFactor
    rw [Int.ceil_eq_iff]; norm_num
  · intro m hm
    cases m <;> first
      | exact absurd rfl hm
      | (unfold jitterPhaseNum UpscalerMode.scalingFactor UpscalerMode.minJitterPhases
         symm; rw [Int.ceil_eq_iff]; norm_num)

/-! ### Binding to memory -/

/-- The two outcomes of `BindMemory`, with the conditions of each. -/
theorem BindMemory_cases (memory : Memory) (desc : MemoryBindingDesc) :
    (BindMemory memory desc = (Result.SUCCESS, { memory with bound := memory.bound ++ [desc] })
        ∧ desc.offset % desc.memoryDesc.alignment = 0
        ∧ desc.offset + desc.memoryDesc.size ≤ memory.size
        ∧ (desc.memoryDesc.mustBeDedicated = true → memory.bound = [] ∧ desc.offset = 0)
        ∧ memory.holdsDedicated = false)
      ∨ (BindMemory memory desc = (Result.INVALID_ARGUMENT, memory)
        ∧ ¬ (desc.offset % desc.memoryDesc.alignment = 0
            ∧ desc.offset + desc.memoryDesc.size ≤ memory.size
            ∧ (desc.memoryDesc.mustBeDedicated = true → memory.bound = [] ∧ desc.offset = 0)
            ∧ memory.holdsDedicated = false)) := by
  unfold BindMemory
  by_cases h1 : desc.offset % desc.memoryDesc.alignment ≠ 0
  · right; rw [if_pos h1]; exact ⟨rfl, fun h => h1 h.1⟩
  · rw [if_neg h1]
    by_cases h2 : memory.size < desc.offset + desc.memoryDesc.size
    · right; rw [if_pos h2]; exact ⟨rfl, fun h => by omega⟩
    · rw [if_neg h2]
      by_cases h3 : (desc.memoryDesc.mustBeDedicated && (!memory.bound.isEmpty || desc.offset != 0)) = true
      · right; rw [if_pos h3]
        refine ⟨rfl, fun h => ?_⟩
        simp only [Bool.and_eq_true, Bool.or_eq_true, Bool.not_eq_true', bne_iff_ne, ne_eq] at h3
        obtain ⟨hd, ho⟩ := h3
        obtain ⟨hb, h0⟩ := h.2.2.1 hd
        rcases ho with ho | ho
        · rw [hb] at ho; simp at ho
        · exact ho h0
      · rw [if_neg h3]
        by_cases h4 : memory.holdsDedicated = true
        · right; rw [if_pos h4]; exact ⟨rfl, fun h => by simp [h4] at h⟩
        · rw [if_neg h4]
          left
          refine ⟨rfl, by simpa using h1, by omega, ?_, by simpa using h4⟩
          intro hd
          simp only [Bool.and_eq_true, Bool.or_eq_true, Bool.not_eq_true', bne_iff_ne, ne_eq,
            not_and, not_or, not_not] at h3
          obtain ⟨hb, h0⟩ := h3 hd
          exact ⟨by simpa [List.isEmpty_iff] using hb, h0⟩

/-- A binding call keeps every dedicated resource alone at offset 0. -/
theorem BindMemory_dedicatedAlone (memory : Memory) (desc : MemoryBindingDesc)
    (h : memory.dedicatedAlone) : (BindMemory memory desc).2.dedicatedAlone := by
  rcases BindMemory_cases memory desc with ⟨he, -, -, hd, hh⟩ | ⟨he, -⟩
  · rw [he]
    intro b hb hbd
    simp only [List.mem_append, List.mem_singleton] at hb
    rcases hb with hb | hb
    · exfalso
      have : memory.holdsDedicated = true := by
        unfold Memory.holdsDedicated
        rw [List.any_eq_true]
        exact ⟨b, hb, hbd⟩
      rw [hh] at this; cases this
    · subst hb
      obtain ⟨hempty, h0⟩ := hd hbd
      exact ⟨by simp [hempty], h0⟩
  · rw [he]; exact h

theorem bindAll_dedicatedAlone (memory : Memory) (descs : List MemoryBindingDesc)
    (h : memory.dedicatedAlone) : (bindAll memory descs).dedicatedAlone := by
  induction descs generalizing memory with
  | nil => exact h
  | cons d ds ih =>
    exact ih _ (BindMemory_dedicatedAlone memory d h)

theorem AllocateMemory_dedicatedAlone (size type : Nat) :
    (AllocateMemory size type).dedicatedAlone := by
  intro b hb
  simp [AllocateMemory] at hb

/-- C14: binding a resource flagged `mustBeDedicated` into a memory that already
has a resource bound fails with `INVALID_ARGUMENT` and changes nothing; and in
every memory reached from a fresh allocation by any sequence of binding calls, a
dedicated resource is the only resource of its memory and sits at offset 0. -/
theorem dedicated_bind_into_occupied_fails (memory : Memory) (desc : MemoryBindingDesc)
    (hd : desc.memoryDesc.mustBeDedicated = true) (ho : memory.bound ≠ []) :
    BindMemory memory desc = (Result.INVALID_ARGUMENT, memory)
      ∧ (∀ (size type : Nat) (descs : List MemoryBindingDesc),
          (bindAll (AllocateMemory size type) descs).dedicatedAlone) := by
  refine ⟨?_, fun size type descs => bindAll_dedicatedAlone _ _ (AllocateMemory_dedicatedAlone _ _)⟩
  rcases BindMemory_cases memory desc with ⟨-, -, -, h, -⟩ | ⟨he, -⟩
  · exact absurd (h hd).1 ho
  · exact he

/-- C14 at a concrete input: the dedicated 100-byte resource and the occupied
memory. -/
theorem dedicated_bind_into_occupied_fails_witness :
    Example.dedicatedAtZero.memoryDesc.mustBeDedicated = true
      ∧ Example.memoryOccupied.bound ≠ []
      ∧ BindMemory Example.memoryOccupied Example.dedicatedAtZero
          = (Result.INVALID_ARGUMENT, Example.memoryOccupied) :=
  ⟨rfl, by decide,
   (dedicated_bind_into_occupied_fails Example.memoryOccupied Example.dedicatedAtZero rfl
     (by decide)).1⟩

/-! ### Fences -/

theorem Fence.after_le (fence : Fence) (e : FenceEvent) :
    GetFenceValue fence ≤ GetFenceValue (fence.after e) := by
  cases e with
  | signalCompleted v =>
    show fence.value ≤ (if fence.value ≤ v then ({ value := v } : Fence) else fence).value
    by_cases h : fence.value ≤ v
    · rw [if_pos h]; exact h
    · rw [if_neg h]
  | hostWait v => exact Nat.le_refl _

theorem Fence.afterAll_le (fence : Fence) (events : List FenceEvent) :
    GetFenceValue fence ≤ GetFenceValue (fence.afterAll events) := by
  induction events generalizing fence with
  | nil => exact Nat.le_refl _
  | cons e es ih =>
    exact Nat.le_trans (Fence.after_le fence e) (ih (fence.after e))

theorem Fence.afterAll_append (fence : Fence) (es₁ es₂ : List FenceEvent) :
    fence.afterAll (es₁ ++ es₂) = (fence.afterAll es₁).afterAll es₂ := by
  simp [Fence.afterAll, List.foldl_append]

theorem Wait_iff (fence : Fence) (value : Nat) :
    Wait fence value = WaitOutcome.returnsImmediately ↔ value ≤ GetFenceValue fence := by
  unfold Wait
  split <;> simp [*]

/-- C15: along every sequence of completed signals and host waits the value read
by `GetFenceValue` never decreases; `Wait(fence, value)` returns immediately
exactly when `GetFenceValue(fence) >= value`; a host wait leaves the fence as it
is; a wait that returns immediately still does so after any further events; and
after a signal of at least `value` has completed, `Wait(fence, value)` returns
immediately. -/
theorem fence_monotone :
    (∀ (fence : Fence) (events later : List FenceEvent),
        GetFenceValue (fence.afterAll events)
          ≤ GetFenceValue (fence.afterAll (events ++ later)))
      ∧ (∀ (fence : Fence) (value : Nat),
          Wait fence value = WaitOutcome.returnsImmediately ↔ value ≤ GetFenceValue fence)
      ∧ (∀ (fence : Fence) (value : Nat), (fence.after (FenceEvent.hostWait value)) = fence)
      ∧ (∀ (fence : Fence) (value : Nat) (later : List FenceEvent),
          Wait fence value = WaitOutcome.returnsImmediately →
            Wait (fence.afterAll later) value = WaitOutcome.returnsImmediately)
      ∧ (∀ (fence : Fence) (value target : Nat), value ≤ target →
          Wait (fence.after (FenceEvent.signalCompleted target)) value
            = WaitOutcome.returnsImmediately) := by
  refine ⟨?_, Wait_iff, fun _ _ => rfl, ?_, ?_⟩
  · intro fence events later
    rw [Fence.afterAll_append]
    exact Fence.afterAll_le _ _
  · intro fence value later h
    rw [Wait_iff] at h ⊢
    exact Nat.le_trans h (Fence.afterAll_le _ _)
  · intro fence value target h
    rw [Wait_iff]
    show value ≤ (if fence.value ≤ target then ({ value := target } : Fence) else fence).value
    by_cases h' : fence.value ≤ target
    · rw [if_pos h']; exact h
    · rw [if_neg h']; omega

/-! ### Command buffers -/

/-- The call sequences that are legal from `RECORDING`. -/
theorem calls_from_recording (cs : List CommandBufferCall) (s : CommandBufferState)
    (h : CommandBufferState.RECORDING.calls cs = some s) :
    (∃ cmds : List Cmd, cs = cmds.map CommandBufferCall.cmd ∧ s = CommandBufferState.RECORDING)
      ∨ (∃ cmds : List Cmd,
          cs = cmds.map CommandBufferCall.cmd ++ [CommandBufferCall.EndCommandBuffer]
            ∧ s = CommandBufferState.EXECUTABLE) := by
  induction cs with
  | nil =>
    left
    simp only [CommandBufferState.calls, Option.some.injEq] at h
    exact ⟨[], rfl, h.symm⟩
  | cons c cs ih =>
    cases c with
    | BeginCommandBuffer => simp [CommandBufferState.calls, CommandBufferState.call] at h
    | cmd c =>
      simp only [CommandBufferState.calls, CommandBufferState.call] at h
      rcases ih h with ⟨cmds, hc, hs⟩ | ⟨cmds, hc, hs⟩
      · exact Or.inl ⟨c :: cmds, by simp [hc], hs⟩
      · exact Or.inr ⟨c :: cmds, by simp [hc], hs⟩
    | EndCommandBuffer =>
      simp only [CommandBufferState.calls, CommandBufferState.call] at h
      right
      cases cs with
      | nil =>
        simp only [CommandBufferState.calls, Option.some.injEq] at h
        exact ⟨[], rfl, h.symm⟩
      | cons c' cs' =>
        cases c' <;> simp [CommandBufferState.calls, CommandBufferState.call] at h

/-- C16: the command buffer state machine. From `INITIAL` the only legal call is
`BeginCommandBuffer`, which leads to `RECORDING`; from `RECORDING` the only call
that changes the state is `EndCommandBuffer`, which leads to `EXECUTABLE`; no
`Cmd*` call changes the state; and every legal sequence of calls on a new
command buffer is a prefix of `BeginCommandBuffer`, `Cmd*` ..., `EndCommandBuffer`,
ending in `INITIAL`, `RECORDING` or `EXECUTABLE` accordingly. -/
theorem command_buffer_state_machine :
    (∀ (c : CommandBufferCall) (s : CommandBufferState),
        CommandBufferState.INITIAL.call c = some s →
          c = CommandBufferCall.BeginCommandBuffer ∧ s = CommandBufferState.RECORDING)
      ∧ CommandBufferState.INITIAL.call CommandBufferCall.BeginCommandBuffer
          = some CommandBufferState.RECORDING
      ∧ (∀ (c : CommandBufferCall) (s : CommandBufferState),
          CommandBufferState.RECORDING.call c = some s → s ≠ CommandBufferState.RECORDING →
            c = CommandBufferCall.EndCommandBuffer ∧ s = CommandBufferState.EXECUTABLE)
      ∧ CommandBufferState.RECORDING.call CommandBufferCall.EndCommandBuffer
          = some CommandBufferState.EXECUTABLE
      ∧ (∀ (s s' : CommandBufferState) (c : Cmd),
          s.call (CommandBufferCall.cmd c) = some s' → s' = s)
      ∧ (∀ (c : Cmd), CommandBufferState.RECORDING.call (CommandBufferCall.cmd c)
          = some CommandBufferState.RECORDING)
      ∧ (∀ (cs : List CommandBufferCall) (s : CommandBufferState),
          CommandBufferState.INITIAL.calls cs = some s →
            (cs = [] ∧ s = CommandBufferState.INITIAL)
              ∨ (∃ cmds : List Cmd,
                  cs = CommandBufferCall.BeginCommandBuffer :: cmds.map CommandBufferCall.cmd
                    ∧ s = CommandBufferState.RECORDING)
              ∨ (∃ cmds : List Cmd,
                  cs = CommandBufferCall.BeginCommandBuffer ::
                        (cmds.map CommandBufferCall.cmd ++ [CommandBufferCall.EndCommandBuffer])
                    ∧ s = CommandBufferState.EXECUTABLE)) := by
  refine ⟨?_, rfl, ?_, rfl, ?_, fun _ => rfl, ?_⟩
  · intro c s h
    cases c <;> simp [CommandBufferState.call] at h
    exact ⟨rfl, h.symm⟩
  · intro c s h hne
    cases c <;> simp [CommandBufferState.call] at h
    · exact absurd h.symm hne
    · exact ⟨rfl, h.symm⟩
  · intro s s' c h
    cases s <;> simp [CommandBufferState.call] at h
    exact h.symm
  · intro cs s h
    cases cs with
    | nil =>
      simp only [CommandBufferState.calls, Option.some.injEq] at h
      exact Or.inl ⟨rfl, h.symm⟩
    | cons c cs =>
      right
      cases c with
      | BeginCommandBuffer =>
        simp only [CommandBufferState.calls, CommandBufferState.call] at h
        rcases calls_from_recording cs s h with ⟨cmds, hc, hs⟩ | ⟨cmds, hc, hs⟩
        · exact Or.inl ⟨cmds, by rw [hc], hs⟩
        · exact Or.inr ⟨cmds, by rw [hc], hs⟩
      | cmd c => simp [CommandBufferState.calls, CommandBufferState.call] at h
      | EndCommandBuffer => simp [CommandBufferState.calls, CommandBufferState.call] at h

/-! ### Descriptor sets -/

theorem DescriptorRange.write_some (range range' : DescriptorRange) (index : Nat)
    (d : Descriptor) (h : range.write index d = some range') :
    range'.desc = range.desc
      ∧ d.descriptorType = range.desc.descriptorType
      ∧ ((∀ x, some x ∈ range.descriptors → x.descriptorType = range.desc.descriptorType) →
          ∀ x, some x ∈ range'.descriptors → x.descriptorType = range'.desc.descriptorType) := by
  unfold DescriptorRange.write at h
  split at h
  · cases h
  · split at h
    · cases h
    · cases h
      rename_i ht _
      have ht' : d.descriptorType = range.desc.descriptorType := by simpa using ht
      refine ⟨rfl, ht', ?_⟩
      intro hall x hx
      rcases List.mem_or_eq_of_mem_set hx with hx | hx
      · exact hall x hx
      · cases hx; exact ht'

theorem DescriptorRange.update_some (range range' : DescriptorRange) (index : Nat)
    (ds : List Descriptor) (h : range.update index ds = some range') :
    range'.desc = range.desc
      ∧ ((∀ x, some x ∈ range.descriptors → x.descriptorType = range.desc.descriptorType) →
          ∀ x, some x ∈ range'.descriptors → x.descriptorType = range'.desc.descriptorType) := by
  induction ds generalizing range index with
  | nil =>
    simp only [DescriptorRange.update, Option.some.injEq] at h
    subst h
    exact ⟨rfl, fun h => h⟩
  | cons d ds ih =>
    simp only [DescriptorRange.update] at h
    split at h
    · cases h
    next r1 hw =>
      obtain ⟨hd1, -, ht1⟩ := DescriptorRange.write_some _ _ _ _ hw
      obtain ⟨hd2, ht2⟩ := ih _ _ h
      exact ⟨hd2.trans hd1, fun hall => ht2 (ht1 hall)⟩

theorem DescriptorRange.update_mismatch (range : DescriptorRange) (index : Nat)
    (before after : List Descriptor) (d : Descriptor)
    (hd : d.descriptorType ≠ range.desc.descriptorType) :
    range.update index (before ++ d :: after) = none := by
  induction before generalizing range index with
  | nil =>
    simp only [List.nil_append, DescriptorRange.update, DescriptorRange.write, if_pos hd]
  | cons b bs ih =>
    simp only [List.cons_append, DescriptorRange.update]
    split
    · rfl
    next r1 hw =>
      obtain ⟨hd1, -, -⟩ := DescriptorRange.write_some _ _ _ _ hw
      exact ih _ _ (by rw [hd1]; exact hd)

theorem UpdateDescriptorRanges_some (set set' : DescriptorSet) (baseRange : Nat)
    (us : List DescriptorRangeUpdateDesc) (h : UpdateDescriptorRanges set baseRange us = some set') :
    set'.shape = set.shape ∧ (set.wellTyped → set'.wellTyped) := by
  induction us generalizing set baseRange with
  | nil =>
    simp only [UpdateDescriptorRanges, Option.some.injEq] at h
    subst h
    exact ⟨rfl, fun h => h⟩
  | cons u us ih =>
    simp only [UpdateDescriptorRanges] at h
    split at h
    · cases h
    next range hr =>
      split at h
      · cases h
      next range' hu =>
        obtain ⟨hdesc, htyped⟩ := DescriptorRange.update_some _ _ _ _ hu
        obtain ⟨hs, hw⟩ := ih _ _ h
        have hlt : baseRange < set.ranges.length := by
          rcases List.getElem?_eq_some_iff.mp hr with ⟨hlt, -⟩
          exact hlt
        have hget : set.ranges[baseRange] = range := by
          rcases List.getElem?_eq_some_iff.mp hr with ⟨_, hg⟩
          exact hg
        refine ⟨?_, ?_⟩
        · rw [hs]
          unfold DescriptorSet.shape
          apply List.ext_getElem?
          intro i
          simp only [List.getElem?_map, List.getElem?_set]
          by_cases hi : baseRange = i
          · subst hi
            simp [hlt, hr, hdesc]
          · simp [hi]
        · intro hwt
          apply hw
          intro r hrm x hx
          rcases List.mem_or_eq_of_mem_set hrm with hrm | hrm
          · exact hwt r hrm x hx
          · subst hrm
            exact htyped (hwt range (hget ▸ List.getElem_mem hlt)) x hx

theorem afterUpdates_inv (set : DescriptorSet) (calls : List (Nat × List DescriptorRangeUpdateDesc)) :
    (set.afterUpdates calls).shape = set.shape
      ∧ (set.wellTyped → (set.afterUpdates calls).wellTyped) := by
  induction calls generalizing set with
  | nil => exact ⟨rfl, fun h => h⟩
  | cons c cs ih =>
    obtain ⟨baseRange, updates⟩ := c
    simp only [DescriptorSet.afterUpdates]
    split
    · exact ih set
    next set' hu =>
      obtain ⟨hs, hw⟩ := UpdateDescriptorRanges_some _ _ _ _ hu
      obtain ⟨hs', hw'⟩ := ih set'
      exact ⟨hs'.trans hs, fun h => hw' (hw h)⟩

theorem AllocateDescriptorSet_some (layout : PipelineLayoutDesc) (setIndex n : Nat)
    (set : DescriptorSet) (setDesc : DescriptorSetDesc)
    (h : AllocateDescriptorSet layout setIndex n = some set)
    (hsd : layout.descriptorSets[setIndex]? = some setDesc) :
    set.shape = setDesc.ranges ∧ set.wellTyped := by
  unfold AllocateDescriptorSet at h
  rw [hsd] at h
  dsimp only at h
  split at h
  · cases h
    refine ⟨?_, ?_⟩
    · simp [DescriptorSet.shape, Function.comp_def]
    · intro r hr x hx
      simp only [List.mem_map] at hr
      obtain ⟨desc, -, rfl⟩ := hr
      simp [List.mem_replicate] at hx
  · cases h

/-- C17: for a descriptor set allocated from set `setIndex` of a pipeline layout,
after any sequence of `UpdateDescriptorRanges` calls, an update of range
`rangeIndex` that contains a descriptor whose `DescriptorType` differs from the
`descriptorType` declared by the `DescriptorRangeDesc` of that range fails; the
set keeps the shape declared at `setIndex`, and every descriptor it holds has
the declared type of its range. -/
theorem mismatched_descriptor_write_fails (pipelineLayout : PipelineLayoutDesc)
    (setIndex variableDescriptorNum : Nat) (descriptorSet : DescriptorSet)
    (setDesc : DescriptorSetDesc) (rangeIndex : Nat) (rangeDesc : DescriptorRangeDesc)
    (calls : List (Nat × List DescriptorRangeUpdateDesc))
    (before after : List Descriptor) (descriptor : Descriptor) (baseDescriptor : Nat)
    (hset : AllocateDescriptorSet pipelineLayout setIndex variableDescriptorNum
              = some descriptorSet)
    (hsd : pipelineLayout.descriptorSets[setIndex]? = some setDesc)
    (hrd : setDesc.ranges[rangeIndex]? = some rangeDesc)
    (hd : descriptor.descriptorType ≠ rangeDesc.descriptorType) :
    UpdateDescriptorRanges (descriptorSet.afterUpdates calls) rangeIndex
        [{ descriptors := before ++ descriptor :: after, baseDescriptor := baseDescriptor }]
        = none
      ∧ (descriptorSet.afterUpdates calls).shape = setDesc.ranges
      ∧ (descriptorSet.afterUpdates calls).wellTyped := by
  obtain ⟨hshape, hwt⟩ := AllocateDescriptorSet_some _ _ _ _ _ hset hsd
  obtain ⟨hshape', hwt'⟩ := afterUpdates_inv descriptorSet calls
  have hs : (descriptorSet.afterUpdates calls).shape = setDesc.ranges := hshape'.trans hshape
  refine ⟨?_, hs, hwt' hwt⟩
  have hr : ((descriptorSet.afterUpdates calls).shape)[rangeIndex]? = some rangeDesc := by
    rw [hs]; exact hrd
  unfold DescriptorSet.shape at hr
  rw [List.getElem?_map] at hr
  cases hget : (descriptorSet.afterUpdates calls).ranges[rangeIndex]? with
  | none => simp [UpdateDescriptorRanges, hget]
  | some range =>
    rw [hget] at hr
    simp only [Option.map_some', Option.some.injEq] at hr
    have hu := DescriptorRange.update_mismatch range baseDescriptor before after descriptor
      (by rw [hr]; exact hd)
    simp [UpdateDescriptorRanges, hget, hu]

/-- C17 at a concrete input: writing a sampler into the texture range of the set
allocated from `layoutTwoTextures` fails, also after a texture was written. -/
theorem mismatched_descriptor_write_fails_witness :
    AllocateDescriptorSet Example.layoutTwoTextures 0 0 = some Example.setTwoTextures
      ∧ Example.sampler.descriptorType ≠ DescriptorType.TEXTURE
      ∧ UpdateDescriptorRanges
          (Example.setTwoTextures.afterUpdates
            [(0, [{ descriptors := [Example.texture], baseDescriptor := 1 }])])
          0 [{ descriptors := [Example.sampler], baseDescriptor := 0 }] = none
      ∧ Example.setTwoTextures.afterUpdates
            [(0, [{ descriptors := [Example.texture], baseDescriptor := 1 }])]
          = { ranges := [{ desc := { baseRegisterIndex := 0, descriptorNum := 2
                                     descriptorType := DescriptorType.TEXTURE
                                     shaderStages := StageBits.FRAGMENT_SHADER
                                     flags := DescriptorRangeBits.NONE }
                           descriptors := [none, some Example.texture] }] } :=
  ⟨by decide, by decide,
   (mismatched_descriptor_write_fails Example.layoutTwoTextures 0 0 Example.setTwoTextures
     _ 0 _ [(0, [{ descriptors := [Example.texture], baseDescriptor := 1 }])]
     [] [] Example.sampler 0 (by decide) rfl rfl (by decide)).1,
   by decide⟩

/-! ### Flag enumerations -/

theorem foldl_or_testBit (flags : List Nat) (acc i : Nat) :
    (flags.foldl (fun acc flag => acc ||| flag) acc).testBit i
      = (acc.testBit i || flags.any (fun flag => flag.testBit i)) := by
  induction flags generalizing acc with
  | nil => simp
  | cons x xs ih => simp [ih, Nat.testBit_or, Bool.or_assoc]

/-- A bit is set in a union exactly when it is set in one of the flags. -/
theorem unionOf_testBit (flags : List Nat) (i : Nat) :
    (unionOf flags).testBit i = flags.any (fun flag => flag.testBit i) := by
  simp [unionOf, foldl_or_testBit]

theorem foldl_or_lt (flags : List Nat) (w : Nat) (h : ∀ x ∈ flags, x < 2 ^ w) (acc : Nat)
    (hacc : acc < 2 ^ w) : flags.foldl (fun acc flag => acc ||| flag) acc < 2 ^ w := by
  induction flags generalizing acc with
  | nil => simpa
  | cons x xs ih =>
    simp only [List.foldl_cons]
    exact ih (fun y hy => h y (List.mem_cons_of_mem _ hy)) _
      (Nat.or_lt_two_pow hacc (h x (List.mem_cons_self _ _)))

/-- A union of flags below `2 ^ w` is below `2 ^ w`. -/
theorem unionOf_lt (flags : List Nat) (w : Nat) (h : ∀ x ∈ flags, x < 2 ^ w) :
    unionOf flags < 2 ^ w :=
  foldl_or_lt flags w h 0 (Nat.two_pow_pos w)

/-- A union that is 0 has only 0 flags. -/
theorem unionOf_eq_zero (flags : List Nat) (h : unionOf flags = 0) : ∀ x ∈ flags, x = 0 := by
  intro x hx
  apply Nat.eq_of_testBit_eq
  intro i
  have := unionOf_testBit flags i
  rw [h, Nat.zero_testBit] at this
  rw [Nat.zero_testBit]
  by_contra hne
  have hx1 : x.testBit i = true := by simpa using hne
  have : flags.any (fun flag => flag.testBit i) = true := List.any_eq_true.mpr ⟨x, hx, hx1⟩
  simp_all

/-- The test `mask & 2^n == 2^n` reads bit `n` of `mask`. -/
theorem and_two_pow_eq_iff (mask n : Nat) :
    mask &&& 2 ^ n = 2 ^ n ↔ mask.testBit n = true := by
  constructor
  · intro h
    have := congrArg (fun x => x.testBit n) h
    simpa [Nat.testBit_and, Nat.testBit_two_pow_self] using this
  · intro h
    apply Nat.eq_of_testBit_eq
    intro i
    rw [Nat.testBit_and, Nat.testBit_two_pow]
    by_cases hi : n = i
    · subst hi; simp [h]
    · simp [hi]

/-- The 23 single constants are `2^0, .., 2^22`, in declaration order. -/
theorem singles_eq_two_pows : StageBits.singles = (List.range 23).map (fun n => 2 ^ n) := by
  decide

/-- C23: the 23 single-stage and modifier constants of `StageBits`
(`INDEX_INPUT` .. `INDIRECT`) are the single bits at positions 0..22, in
declaration order: each has exactly one bit set, at a position below 23; any two
of them are distinct with bitwise AND 0; and for a mask that is the OR of any
list of them, a single constant passes the membership test `mask & s == s`
exactly when it is one of those that were OR-ed into the mask. -/
theorem stage_single_bits :
    StageBits.singles = (List.range 23).map (fun n => 2 ^ n)
    ∧ StageBits.singles.length = 23
    ∧ (∀ s ∈ StageBits.singles, ∃ n, n < 23 ∧ ∀ i, s.testBit i = true ↔ i = n)
    ∧ StageBits.singles.Pairwise (fun a b => a ≠ b ∧ a &&& b = 0)
    ∧ ∀ ored : List Nat, (∀ x ∈ ored, x ∈ StageBits.singles) →
        ∀ s ∈ StageBits.singles,
          (StageBits.contains (unionOf ored) s = true ↔ s ∈ ored) := by
  have hpow : ∀ s ∈ StageBits.singles, ∃ n, n < 23 ∧ s = 2 ^ n := by
    intro s hs
    rw [singles_eq_two_pows, List.mem_map] at hs
    obtain ⟨n, hn, rfl⟩ := hs
    exact ⟨n, List.mem_range.mp hn, rfl⟩
  refine ⟨singles_eq_two_pows, rfl, ?_, by decide, ?_⟩
  · intro s hs
    obtain ⟨n, hn, rfl⟩ := hpow s hs
    refine ⟨n, hn, fun i => ?_⟩
    rw [Nat.testBit_two_pow]
    simp [eq_comm]
  · intro ored hored s hs
    obtain ⟨n, -, rfl⟩ := hpow s hs
    rw [StageBits.contains, beq_iff_eq, and_two_pow_eq_iff, unionOf_testBit, List.any_eq_true]
    constructor
    · rintro ⟨x, hx, hbit⟩
      obtain ⟨j, -, rfl⟩ := hpow x (hored x hx)
      rw [Nat.testBit_two_pow] at hbit
      have : j = n := by simpa using hbit
      subst this
      exact hx
    · intro h
      exact ⟨_, h, Nat.testBit_two_pow_self⟩

/-- Every named stage constant is non-zero and below `2^23`. -/
theorem stage_named_bounds : ∀ s ∈ StageBits.named, s ≠ 0 ∧ s < 2 ^ 23 := by decide

/-- C24: the special `StageBits` values are no unions of real stages. `ALL` is 0
and `NONE` is `0x7FFFFFFF`; the OR of any list of named stage, modifier or
umbrella constants is at most `0x7FFFFF`, hence never `NONE`, and is not `ALL`
unless the list is empty; and every named constant `s` satisfies
`s & NONE == s` (it passes the membership test on `NONE`) and `s | ALL == s`
(it does not pass the membership test on `ALL`). -/
theorem stage_specials_not_unions :
    StageBits.ALL = 0 ∧ StageBits.NONE = 0x7FFFFFFF
    ∧ (∀ union : List Nat, (∀ x ∈ union, x ∈ StageBits.named) →
        unionOf union ≤ 0x7FFFFF
        ∧ unionOf union ≠ StageBits.NONE
        ∧ (union ≠ [] → unionOf union ≠ StageBits.ALL))
    ∧ (∀ s ∈ StageBits.named,
        s &&& StageBits.NONE = s ∧ StageBits.contains StageBits.NONE s = true
        ∧ s ||| StageBits.ALL = s ∧ StageBits.contains StageBits.ALL s = false) := by
  refine ⟨rfl, rfl, ?_, by decide⟩
  intro union hu
  have hlt : unionOf union < 2 ^ 23 :=
    unionOf_lt union 23 (fun x hx => (stage_named_bounds x (hu x hx)).2)
  refine ⟨by omega, ?_, ?_⟩
  · have : StageBits.NONE = 0x7FFFFFFF := rfl
    omega
  · intro hne h0
    cases union with
    | nil => exact hne rfl
    | cons x xs =>
      exact (stage_named_bounds x (hu x (List.mem_cons_self _ _))).1
        (unionOf_eq_zero _ h0 x (List.mem_cons_self _ _))

/-- C25: the stage umbrellas are nested and separated. `TESSELLATION_SHADERS`
and `MESH_SHADERS` are subsets of `GRAPHICS_SHADERS` and `GRAPHICS_SHADERS` is a
subset of `DRAW` (as bit sets, `a & b == a`, and stage by stage over the 23
single constants); `DRAW`, `COMPUTE_SHADER` and `RAY_TRACING_SHADERS` have
pairwise bitwise AND 0. -/
theorem stage_umbrellas_nested_and_separated :
    (StageBits.TESSELLATION_SHADERS &&& StageBits.GRAPHICS_SHADERS
        = StageBits.TESSELLATION_SHADERS
      ∧ StageBits.MESH_SHADERS &&& StageBits.GRAPHICS_SHADERS = StageBits.MESH_SHADERS
      ∧ StageBits.GRAPHICS_SHADERS &&& StageBits.DRAW = StageBits.GRAPHICS_SHADERS)
    ∧ (∀ s ∈ StageBits.singles,
        (StageBits.contains StageBits.TESSELLATION_SHADERS s = true
            → StageBits.contains StageBits.GRAPHICS_SHADERS s = true)
        ∧ (StageBits.contains StageBits.MESH_SHADERS s = true
            → StageBits.contains StageBits.GRAPHICS_SHADERS s = true)
        ∧ (StageBits.contains StageBits.GRAPHICS_SHADERS s = true
            → StageBits.contains StageBits.DRAW s = true))
    ∧ (StageBits.DRAW &&& StageBits.COMPUTE_SHADER = 0
      ∧ StageBits.DRAW &&& StageBits.RAY_TRACING_SHADERS = 0
      ∧ StageBits.COMPUTE_SHADER &&& StageBits.RAY_TRACING_SHADERS = 0) := by
  decide

/-- Every enumerator of every flag enumeration is below `2 ^ width`. -/
theorem flag_enum_named_lt : ∀ e ∈ allFlagEnums, ∀ v ∈ e.named, v < 2 ^ e.width := by
  decide

/-- C26: every flag enumeration fits its underlying type. The headers declare 19
flag enumerations with `NriBits`, over `uint8_t`, `uint16_t` or `uint32_t`; in
each, every enumerator and the OR of any list of enumerators is below
`2 ^ width`, so converting it to the underlying type (reduction modulo
`2 ^ width`) leaves it as it is. In particular `AccelerationStructureBits` is 0
and the bits 0..7 in 8 bits, `UpscalerBits` 0 and the bits 0..8 in 16 bits,
`BufferUsageBits` 0 and the bits 0..11 in 16 bits, `FormatSupportBits` 0 and the
bits 0..13 in 16 bits, and `StageBits` 0, `0x7FFFFFFF`, the bits 0..22 and the
five umbrellas in 32 bits. -/
theorem flag_enums_fit_underlying_type :
    allFlagEnums.length = 19
    ∧ (∀ e ∈ allFlagEnums, e.width = 8 ∨ e.width = 16 ∨ e.width = 32)
    ∧ (∀ e ∈ allFlagEnums, ∀ v ∈ e.named, v < 2 ^ e.width ∧ v % 2 ^ e.width = v)
    ∧ (∀ e ∈ allFlagEnums, ∀ union : List Nat, (∀ x ∈ union, x ∈ e.named) →
        unionOf union < 2 ^ e.width ∧ unionOf union % 2 ^ e.width = unionOf union)
    ∧ AccelerationStructureBits.decl
        = { width := 8, named := 0 :: (List.range 8).map (fun n => 2 ^ n) }
    ∧ UpscalerBits.decl = { width := 16, named := 0 :: (List.range 9).map (fun n => 2 ^ n) }
    ∧ BufferUsageBits.decl
        = { width := 16, named := 0 :: (List.range 12).map (fun n => 2 ^ n) }
    ∧ FormatSupportBits.decl
        = { width := 16, named := 0 :: (List.range 14).map (fun n => 2 ^ n) }
    ∧ StageBits.decl
        = { width := 32
            named := 0 :: 0x7FFFFFFF :: (List.range 23).map (fun n => 2 ^ n)
              ++ [0xC, 0x60, 0xFE, 0x3FF, 0x1F800] } := by
  refine ⟨rfl, by decide, ?_, ?_, by decide, by decide, by decide, by decide, by decide⟩
  · intro e he v hv
    have := flag_enum_named_lt e he v hv
    exact ⟨this, Nat.mod_eq_of_lt this⟩
  · intro e he union hu
    have := unionOf_lt union e.width (fun x hx => flag_enum_named_lt e he x (hu x hx))
    exact ⟨this, Nat.mod_eq_of_lt this⟩


end NRI
